import Mathlib

/-!
Shallow embedding of the class-scheduling conflict-detection and instructor-workload
engine of the Schedium backend (src/app/services/scheduling.py, src/app/services/hr.py,
src/app/repositories/scheduling.py, src/app/repositories/hr.py, src/app/repositories/base.py,
src/app/models/scheduling.py, src/app/models/hr.py, src/app/schemas).

Conventions of the embedding:
- machine clock times are minutes since midnight (Nat), dates are day ordinals (Int);
- Python Decimal / float hour arithmetic is embedded as exact rationals (Rat);
- SQLAlchemy queries `filter(...).first()` become `List.filter` / `List.find?`;
- raised exceptions become `Except AppError`; the data interpolated into a message
  f-string is carried as structured fields of the error constructor;
- Python truthiness of `Optional[int]` values (`if exclude_id:`) is embedded by
  `pyTruthy`, and the `a or b` fallback used to merge update payloads by `pyOrNat`.
-/

namespace Schedium

/-! ### Entity rows (src/app/models) -/

/-- Contract row (src/app/models/hr.py, class Contract). -/
structure ContractRow where
  contract_id : Nat
  contract_type : String
  hour_limit : Option Nat
deriving DecidableEq

/-- Instructor row (src/app/models/hr.py, class Instructor). -/
structure InstructorRow where
  instructor_id : Nat
  first_name : String
  last_name : String
  phone_number : Option String
  email : String
  hour_count : Rat
  contract_id : Option Nat
  department_id : Option Nat
  active : Bool
deriving DecidableEq

/-- `full_name` property of the Instructor model. -/
def InstructorRow.full_name (i : InstructorRow) : String :=
  i.first_name ++ " " ++ i.last_name

/-- Classroom row (src/app/models/infrastructure.py, class Classroom). -/
structure ClassroomRow where
  classroom_id : Nat
  room_number : String
  capacity : Nat
deriving DecidableEq

/-- Student group row (src/app/models/academic.py, class StudentGroup). -/
structure StudentGroupRow where
  group_id : Nat
  group_number : Nat
  capacity : Nat
deriving DecidableEq

/-- Time block row (src/app/models/scheduling.py, class TimeBlock).
`duration_minutes` is a plain column (computed inside the database, outside src/),
so it is carried here as data. -/
structure TimeBlockRow where
  time_block_id : Nat
  start_time : Nat
  end_time : Nat
  duration_minutes : Nat
deriving DecidableEq

/-- Day row (src/app/models/scheduling.py, class Day). -/
structure DayRow where
  day_id : Nat
  name : String
deriving DecidableEq

/-- DayTimeBlock row with its `day` and `time_block` relations resolved
(the service always loads it through `get_with_relations`). -/
structure DayTimeBlockRow where
  day_time_block_id : Nat
  day : DayRow
  time_block : TimeBlockRow
deriving DecidableEq

/-- Quarter row (src/app/models/scheduling.py, class Quarter). The `name`
column is generated inside the database and only ever interpolated into
error messages, so it is omitted. -/
structure QuarterRow where
  quarter_id : Nat
  start_date : Int
  end_date : Int
deriving DecidableEq

/-- Class schedule row (src/app/models/scheduling.py, class ClassSchedule). -/
structure ClassScheduleRow where
  class_schedule_id : Nat
  subject : String
  quarter_id : Nat
  day_time_block_id : Nat
  group_id : Nat
  instructor_id : Nat
  classroom_id : Nat
deriving DecidableEq

/-! ### Python helpers -/

/-- Truthiness of a Python `Optional[int]`: `None` and `0` are falsy. -/
def pyTruthy : Option Nat → Bool
  | none => false
  | some v => v != 0

/-- Python `a or b` for `a : Optional[int]`, `b : int` (used by
`update_class_schedule` to merge the partial payload over the stored row). -/
def pyOrNat (a : Option Nat) (b : Nat) : Nat :=
  match a with
  | some v => if v = 0 then b else v
  | none => b

/-- Python `a or b` for `a : Optional[str]`, `b : str`. -/
def pyOrStr (a : Option String) (b : String) : String :=
  match a with
  | some v => if v = "" then b else v
  | none => b

/-! ### Database state -/

/-- Static reference tables that the modelled operations never mutate. -/
structure Env where
  classrooms : List ClassroomRow
  groups : List StudentGroupRow
  dtbs : List DayTimeBlockRow
  contracts : List ContractRow
  department_ids : List Nat
deriving DecidableEq

/-- Mutable tables touched by the modelled operations, plus the autoincrement
counters of their primary keys. -/
structure DB where
  schedules : List ClassScheduleRow
  instructors : List InstructorRow
  quarters : List QuarterRow
  next_class_schedule_id : Nat
  next_quarter_id : Nat
deriving DecidableEq

/-! ### Repository lookups (BaseRepository.get: `filter(pk == id).first()`) -/

def getClassroom (env : Env) (id : Nat) : Option ClassroomRow :=
  env.classrooms.find? (fun c => c.classroom_id == id)

def getGroup (env : Env) (id : Nat) : Option StudentGroupRow :=
  env.groups.find? (fun g => g.group_id == id)

def getDayTimeBlock (env : Env) (id : Nat) : Option DayTimeBlockRow :=
  env.dtbs.find? (fun d => d.day_time_block_id == id)

def getContract (env : Env) (id : Nat) : Option ContractRow :=
  env.contracts.find? (fun c => c.contract_id == id)

def getInstructor (db : DB) (id : Nat) : Option InstructorRow :=
  db.instructors.find? (fun i => i.instructor_id == id)

def getQuarter (db : DB) (id : Nat) : Option QuarterRow :=
  db.quarters.find? (fun q => q.quarter_id == id)

def getClassScheduleRow (db : DB) (id : Nat) : Option ClassScheduleRow :=
  db.schedules.find? (fun cs => cs.class_schedule_id == id)

/-- The `instructor.contract` relationship. -/
def instructorContract (env : Env) (i : InstructorRow) : Option ContractRow :=
  match i.contract_id with
  | none => none
  | some cid => getContract env cid

/-! ### Errors (src/app/core/exceptions.py) -/

/-- Application errors. Constructors carry the data interpolated into the
exception detail string of the source. `integrityError` stands for a database
constraint violation surfacing at commit; `runtimeError` for a Python-level
exception such as an IndexError. -/
inductive AppError where
  | notFound (model : String) (id : Nat)
  | badRequest (error_code : String)
  | conflict (error_code : String)
  | scheduleConflict (conflict_type resource_name existing_subject : String)
  | integrityError
  | runtimeError
deriving DecidableEq

/-! ### Conflict checks (src/app/repositories/scheduling.py, ClassScheduleRepository) -/

/-- `check_instructor_conflict`: first ClassSchedule with the same
(instructor, day_time_block, quarter), minus `exclude_id` when that argument
is truthy. -/
def check_instructor_conflict (db : DB) (instructor_id day_time_block_id quarter_id : Nat)
    (exclude_id : Option Nat) : Option ClassScheduleRow :=
  let q := db.schedules.filter (fun cs =>
    cs.instructor_id == instructor_id &&
    cs.day_time_block_id == day_time_block_id &&
    cs.quarter_id == quarter_id)
  let q := if pyTruthy exclude_id then
      q.filter (fun cs => cs.class_schedule_id != exclude_id.getD 0)
    else q
  q.head?

/-- `check_classroom_conflict`. -/
def check_classroom_conflict (db : DB) (classroom_id day_time_block_id quarter_id : Nat)
    (exclude_id : Option Nat) : Option ClassScheduleRow :=
  let q := db.schedules.filter (fun cs =>
    cs.classroom_id == classroom_id &&
    cs.day_time_block_id == day_time_block_id &&
    cs.quarter_id == quarter_id)
  let q := if pyTruthy exclude_id then
      q.filter (fun cs => cs.class_schedule_id != exclude_id.getD 0)
    else q
  q.head?

/-- `check_group_conflict`. -/
def check_group_conflict (db : DB) (group_id day_time_block_id quarter_id : Nat)
    (exclude_id : Option Nat) : Option ClassScheduleRow :=
  let q := db.schedules.filter (fun cs =>
    cs.group_id == group_id &&
    cs.day_time_block_id == day_time_block_id &&
    cs.quarter_id == quarter_id)
  let q := if pyTruthy exclude_id then
      q.filter (fun cs => cs.class_schedule_id != exclude_id.getD 0)
    else q
  q.head?

/-! ### Schemas (src/app/schemas/scheduling.py) -/

/-- `ClassScheduleCreate`. -/
structure ClassScheduleCreateSchema where
  subject : String
  quarter_id : Nat
  day_time_block_id : Nat
  group_id : Nat
  instructor_id : Nat
  classroom_id : Nat
deriving DecidableEq

/-- `ClassScheduleUpdate`: every field optional; `none` means the field was
not provided in the request body. -/
structure ClassScheduleUpdateSchema where
  subject : Option String
  quarter_id : Option Nat
  day_time_block_id : Option Nat
  group_id : Option Nat
  instructor_id : Option Nat
  classroom_id : Option Nat
deriving DecidableEq

/-- `ScheduleConflict`. `conflict_type` is one of the strings used by the
service; `day` and `time_block` carry the data interpolated into the
`f"{start_time}-{end_time}"` label. -/
structure ScheduleConflict where
  conflict_type : String
  resource_id : Nat
  resource_name : String
  existing_schedule_id : Nat
  existing_subject : String
  day : String
  time_block : String
deriving DecidableEq

/-- Validation warnings are formatted strings in the source; each constructor
carries the values interpolated into the corresponding message. -/
inductive Warning where
  | overload (instructor_name : String) (total_hours : Rat) (hour_limit : Nat)
  | capacity (classroom_capacity : Nat) (group_capacity : Nat)
deriving DecidableEq

/-- `ScheduleValidation`. -/
structure ScheduleValidation where
  is_valid : Bool
  conflicts : List ScheduleConflict
  warnings : List Warning
deriving DecidableEq

/-! ### validate_schedule (src/app/services/scheduling.py) -/

/-- The `f"{start_time}-{end_time}"` time-block label of a conflict. -/
def timeBlockLabel (tb : TimeBlockRow) : String :=
  toString tb.start_time ++ "-" ++ toString tb.end_time

/-- `conflict.day_time_block.day.name` on a stored row: the relationship always
resolves for committed rows (foreign keys); the empty string covers the
unreachable dangling case. -/
def dtbDayName (env : Env) (id : Nat) : String :=
  match getDayTimeBlock env id with
  | some d => d.day.name
  | none => ""

/-- `f"{...start_time}-{...end_time}"` via `conflict.day_time_block.time_block`. -/
def dtbTimeLabel (env : Env) (id : Nat) : String :=
  match getDayTimeBlock env id with
  | some d => timeBlockLabel d.time_block
  | none => ""

/-- The instructor branch of `validate_schedule`: given the row returned by
`check_instructor_conflict`, append one conflict (resource_name falls back to
"Unknown" when the instructor lookup misses). -/
def instructor_conflict_entry (env : Env) (db : DB) (s : ClassScheduleCreateSchema)
    (found : Option ClassScheduleRow) : List ScheduleConflict :=
  match found with
  | none => []
  | some cs =>
    [{ conflict_type := "instructor"
       resource_id := s.instructor_id
       resource_name := match getInstructor db s.instructor_id with
         | some instructor => instructor.full_name
         | none => "Unknown"
       existing_schedule_id := cs.class_schedule_id
       existing_subject := cs.subject
       day := dtbDayName env cs.day_time_block_id
       time_block := dtbTimeLabel env cs.day_time_block_id }]

/-- The classroom branch of `validate_schedule` (`f"Room {room_number}"`). -/
def classroom_conflict_entry (env : Env) (s : ClassScheduleCreateSchema)
    (found : Option ClassScheduleRow) : List ScheduleConflict :=
  match found with
  | none => []
  | some cs =>
    [{ conflict_type := "classroom"
       resource_id := s.classroom_id
       resource_name := match getClassroom env s.classroom_id with
         | some classroom => "Room " ++ classroom.room_number
         | none => "Unknown"
       existing_schedule_id := cs.class_schedule_id
       existing_subject := cs.subject
       day := dtbDayName env cs.day_time_block_id
       time_block := dtbTimeLabel env cs.day_time_block_id }]

/-- The group branch of `validate_schedule` (`f"Group {group_number}"`). -/
def group_conflict_entry (env : Env) (s : ClassScheduleCreateSchema)
    (found : Option ClassScheduleRow) : List ScheduleConflict :=
  match found with
  | none => []
  | some cs =>
    [{ conflict_type := "group"
       resource_id := s.group_id
       resource_name := match getGroup env s.group_id with
         | some group => "Group " ++ toString group.group_number
         | none => "Unknown"
       existing_schedule_id := cs.class_schedule_id
       existing_subject := cs.subject
       day := dtbDayName env cs.day_time_block_id
       time_block := dtbTimeLabel env cs.day_time_block_id }]

/-- The instructor-workload branch of `validate_schedule`: Python evaluates
`instructor and instructor.contract and instructor.contract.hour_limit`
(so a limit of 0 is falsy), `hours_to_add = duration_minutes / 60`,
`total_hours = hour_count + hours_to_add`, warning when
`total_hours > hour_limit`. -/
def workload_warning_entry (env : Env) (db : DB) (s : ClassScheduleCreateSchema) :
    List Warning :=
  match getInstructor db s.instructor_id with
  | none => []
  | some instructor =>
    match instructorContract env instructor with
    | none => []
    | some contract =>
      match contract.hour_limit with
      | none => []
      | some hour_limit =>
        if hour_limit = 0 then []
        else
          match getDayTimeBlock env s.day_time_block_id with
          | none => []
          | some dtb =>
            let hours_to_add : Rat := (dtb.time_block.duration_minutes : Rat) / 60
            let total_hours : Rat := instructor.hour_count + hours_to_add
            if total_hours > (hour_limit : Rat) then
              [Warning.overload instructor.full_name total_hours hour_limit]
            else []

/-- The classroom-capacity branch of `validate_schedule`. -/
def capacity_warning_entry (env : Env) (s : ClassScheduleCreateSchema) : List Warning :=
  match getClassroom env s.classroom_id, getGroup env s.group_id with
  | some classroom, some group =>
    if classroom.capacity < group.capacity then
      [Warning.capacity classroom.capacity group.capacity]
    else []
  | _, _ => []

/-- `SchedulingService.validate_schedule`: run the three conflict checks
(instructor, classroom, group) without exclusion, append at most one conflict
per check, compute warnings, `is_valid = len(conflicts) == 0`. -/
def validate_schedule (env : Env) (db : DB) (s : ClassScheduleCreateSchema) :
    ScheduleValidation :=
  let conflicts :=
    instructor_conflict_entry env db s
      (check_instructor_conflict db s.instructor_id s.day_time_block_id s.quarter_id none)
    ++ classroom_conflict_entry env s
      (check_classroom_conflict db s.classroom_id s.day_time_block_id s.quarter_id none)
    ++ group_conflict_entry env s
      (check_group_conflict db s.group_id s.day_time_block_id s.quarter_id none)
  let warnings := workload_warning_entry env db s ++ capacity_warning_entry env s
  { is_valid := conflicts.isEmpty
    conflicts := conflicts
    warnings := warnings }

/-- Following the spec's words (§4.5, §4.6): validation for an update runs each
of the three conflict checks with `exclude_id = id`. The repository check
functions under src already accept that argument; the service never passes it.
This definition exists to be compared with the service's post-filtering. -/
def validate_schedule_exclude (env : Env) (db : DB) (s : ClassScheduleCreateSchema)
    (exclude_id : Option Nat) : ScheduleValidation :=
  let conflicts :=
    instructor_conflict_entry env db s
      (check_instructor_conflict db s.instructor_id s.day_time_block_id s.quarter_id exclude_id)
    ++ classroom_conflict_entry env s
      (check_classroom_conflict db s.classroom_id s.day_time_block_id s.quarter_id exclude_id)
    ++ group_conflict_entry env s
      (check_group_conflict db s.group_id s.day_time_block_id s.quarter_id exclude_id)
  let warnings := workload_warning_entry env db s ++ capacity_warning_entry env s
  { is_valid := conflicts.isEmpty
    conflicts := conflicts
    warnings := warnings }

/-! ### Instructor-hour trigger -/

/-- Duration of a slot in hours: `duration_minutes / 60` as the source computes it. -/
def slotDurationHours (dtb : DayTimeBlockRow) : Rat :=
  (dtb.time_block.duration_minutes : Rat) / 60

/-- Duration in hours of the slot a stored row points at (0 for a dangling
reference, which committed rows never have). -/
def rowDurationHours (env : Env) (cs : ClassScheduleRow) : Rat :=
  match getDayTimeBlock env cs.day_time_block_id with
  | some dtb => slotDurationHours dtb
  | none => 0

/-- Modelled from the spec: the services delegate hour-count maintenance to a
database trigger that is not under src ("The database trigger will handle
updating instructor hours", src/app/services/scheduling.py). Per spec §4.4,
`on_create(instructor_id, slot_duration_hours)` adds the slot duration to the
instructor's `hour_count`. -/
def triggerOnCreate (instructors : List InstructorRow) (instructor_id : Nat)
    (hours : Rat) : List InstructorRow :=
  instructors.map (fun i =>
    if i.instructor_id == instructor_id then
      { i with hour_count := i.hour_count + hours }
    else i)

/-- Modelled from the spec: `on_delete(instructor_id, slot_duration_hours)`
subtracts the slot duration (spec §4.4); the trigger itself is not under src. -/
def triggerOnDelete (instructors : List InstructorRow) (instructor_id : Nat)
    (hours : Rat) : List InstructorRow :=
  instructors.map (fun i =>
    if i.instructor_id == instructor_id then
      { i with hour_count := i.hour_count - hours }
    else i)

/-- Modelled from the spec: `on_reassign(old_instructor_id, new_instructor_id,
old_duration, new_duration)` subtracts the old duration from the old instructor
and adds the new duration to the new one; when the instructor is unchanged this
net-adjusts the same instructor (spec §4.4). The trigger itself is not under src. -/
def triggerOnReassign (instructors : List InstructorRow)
    (old_instructor_id new_instructor_id : Nat) (old_hours new_hours : Rat) :
    List InstructorRow :=
  triggerOnCreate (triggerOnDelete instructors old_instructor_id old_hours)
    new_instructor_id new_hours

/-! ### Storage-level constraints (src/app/models/scheduling.py, `__table_args__`
and the `ForeignKey` declarations) -/

/-- Two rows collide on none of the three composite unique indexes
`uq_schedule_conflict_instructor` / `_classroom` / `_group`. -/
def noSharedKey (a b : ClassScheduleRow) : Bool :=
  !(a.day_time_block_id == b.day_time_block_id && a.quarter_id == b.quarter_id
      && a.instructor_id == b.instructor_id) &&
  !(a.day_time_block_id == b.day_time_block_id && a.quarter_id == b.quarter_id
      && a.classroom_id == b.classroom_id) &&
  !(a.day_time_block_id == b.day_time_block_id && a.quarter_id == b.quarter_id
      && a.group_id == b.group_id)

/-- The whole table satisfies the three composite unique constraints. -/
def exclusivityOK : List ClassScheduleRow → Bool
  | [] => true
  | r :: rs => rs.all (noSharedKey r) && exclusivityOK rs

/-- Primary keys are pairwise distinct. -/
def idsDistinctOK : List ClassScheduleRow → Bool
  | [] => true
  | r :: rs => rs.all (fun t => t.class_schedule_id != r.class_schedule_id)
      && idsDistinctOK rs

/-- The five foreign keys of a ClassSchedule row resolve. -/
def rowFKOK (env : Env) (instructors : List InstructorRow)
    (quarters : List QuarterRow) (r : ClassScheduleRow) : Bool :=
  (quarters.find? (fun q => q.quarter_id == r.quarter_id)).isSome &&
  (env.dtbs.find? (fun d => d.day_time_block_id == r.day_time_block_id)).isSome &&
  (env.groups.find? (fun g => g.group_id == r.group_id)).isSome &&
  (instructors.find? (fun i => i.instructor_id == r.instructor_id)).isSome &&
  (env.classrooms.find? (fun c => c.classroom_id == r.classroom_id)).isSome

/-- The database accepts an INSERT of `r` into class_schedule: no existing row
collides with it on a unique index and its foreign keys resolve. -/
def insertOK (env : Env) (db : DB) (r : ClassScheduleRow) : Bool :=
  db.schedules.all (noSharedKey r) && rowFKOK env db.instructors db.quarters r

/-- The database accepts an UPDATE producing row `r`: no other row collides
with it on a unique index and its foreign keys resolve. -/
def updateCommitOK (env : Env) (db : DB) (r : ClassScheduleRow) : Bool :=
  (db.schedules.filter (fun cs => cs.class_schedule_id != r.class_schedule_id)).all
    (noSharedKey r) &&
  rowFKOK env db.instructors db.quarters r

/-! ### Class-schedule write operations (src/app/services/scheduling.py) -/

/-- The error raised for the first remaining conflict:
`ScheduleConflictException(f"{type.title()} conflict: {resource_name} already
has {existing_subject} at this time")`. Indexing `conflicts[0]` on an empty
list would be a Python IndexError. -/
def firstConflictError (conflicts : List ScheduleConflict) : AppError :=
  match conflicts with
  | c :: _ => .scheduleConflict c.conflict_type c.resource_name c.existing_subject
  | [] => .runtimeError

/-- The row `create_class_schedule` inserts: the candidate's fields under the
next autoincrement primary key. -/
def newClassScheduleRow (db : DB) (s : ClassScheduleCreateSchema) :
    ClassScheduleRow :=
  { class_schedule_id := db.next_class_schedule_id
    subject := s.subject
    quarter_id := s.quarter_id
    day_time_block_id := s.day_time_block_id
    group_id := s.group_id
    instructor_id := s.instructor_id
    classroom_id := s.classroom_id }

/-- `SchedulingService.create_class_schedule`: five `get_or_404` foreign-key
checks, then `validate_schedule`; a non-valid result raises naming the first
conflict; otherwise the row is inserted (autoincrement id) and the database
trigger adjusts the instructor's hours. -/
def create_class_schedule (env : Env) (db : DB) (s : ClassScheduleCreateSchema) :
    Except AppError (DB × ClassScheduleRow) :=
  match getQuarter db s.quarter_id with
  | none => Except.error (.notFound "Quarter" s.quarter_id)
  | some _ =>
  match getDayTimeBlock env s.day_time_block_id with
  | none => Except.error (.notFound "DayTimeBlock" s.day_time_block_id)
  | some dtb =>
  match getGroup env s.group_id with
  | none => Except.error (.notFound "StudentGroup" s.group_id)
  | some _ =>
  match getInstructor db s.instructor_id with
  | none => Except.error (.notFound "Instructor" s.instructor_id)
  | some _ =>
  match getClassroom env s.classroom_id with
  | none => Except.error (.notFound "Classroom" s.classroom_id)
  | some _ =>
  let validation := validate_schedule env db s
  if !validation.is_valid then
    Except.error (firstConflictError validation.conflicts)
  else
    let row := newClassScheduleRow db s
    if insertOK env db row then
      Except.ok
        ({ db with
            schedules := db.schedules ++ [row]
            next_class_schedule_id := db.next_class_schedule_id + 1
            instructors := triggerOnCreate db.instructors s.instructor_id
              (slotDurationHours dtb) },
          row)
    else Except.error .integrityError

/-- The transactional view of create: an error rolls the state back. -/
def createRunState (env : Env) (db : DB) (s : ClassScheduleCreateSchema) : DB :=
  match create_class_schedule env db s with
  | .ok (db', _) => db'
  | .error _ => db

/-- The merged candidate `update_class_schedule` validates: each provided field
falls back to the stored row through Python `or`. -/
def update_validation_data (schedule : ClassScheduleRow)
    (u : ClassScheduleUpdateSchema) : ClassScheduleCreateSchema :=
  { subject := pyOrStr u.subject schedule.subject
    quarter_id := pyOrNat u.quarter_id schedule.quarter_id
    day_time_block_id := pyOrNat u.day_time_block_id schedule.day_time_block_id
    group_id := pyOrNat u.group_id schedule.group_id
    instructor_id := pyOrNat u.instructor_id schedule.instructor_id
    classroom_id := pyOrNat u.classroom_id schedule.classroom_id }

/-- `BaseRepository.update`: set exactly the provided fields on the stored row. -/
def applyUpdateFields (schedule : ClassScheduleRow) (u : ClassScheduleUpdateSchema) :
    ClassScheduleRow :=
  { schedule with
    subject := u.subject.getD schedule.subject
    quarter_id := u.quarter_id.getD schedule.quarter_id
    day_time_block_id := u.day_time_block_id.getD schedule.day_time_block_id
    group_id := u.group_id.getD schedule.group_id
    instructor_id := u.instructor_id.getD schedule.instructor_id
    classroom_id := u.classroom_id.getD schedule.classroom_id }

/-- The persistence tail of `update_class_schedule`: `BaseRepository.update`
sets the provided fields and commits; the database trigger then reassigns the
hours between the before and after instructors. -/
def persist_class_schedule_update (env : Env) (db : DB) (class_schedule_id : Nat)
    (u : ClassScheduleUpdateSchema) (schedule : ClassScheduleRow) :
    Except AppError DB :=
  let newRow := applyUpdateFields schedule u
  if updateCommitOK env db newRow then
    Except.ok
      { db with
        schedules := db.schedules.map (fun cs =>
          if cs.class_schedule_id == class_schedule_id then newRow else cs)
        instructors := triggerOnReassign db.instructors
          schedule.instructor_id newRow.instructor_id
          (rowDurationHours env schedule) (rowDurationHours env newRow) }
  else Except.error .integrityError

/-- `SchedulingService.update_class_schedule`: load the row (404 if missing);
when any of the five id fields is provided, validate the merged candidate and
drop conflicts whose `existing_schedule_id` equals the updated row's id,
raising on the first remaining one; then persist. -/
def update_class_schedule (env : Env) (db : DB) (class_schedule_id : Nat)
    (u : ClassScheduleUpdateSchema) : Except AppError DB :=
  match getClassScheduleRow db class_schedule_id with
  | none => Except.error (.notFound "ClassSchedule" class_schedule_id)
  | some schedule =>
    if u.instructor_id.isSome || u.classroom_id.isSome || u.group_id.isSome ||
        u.day_time_block_id.isSome || u.quarter_id.isSome then
      let validation := validate_schedule env db (update_validation_data schedule u)
      let remaining := validation.conflicts.filter
        (fun c => c.existing_schedule_id != class_schedule_id)
      if !remaining.isEmpty then
        Except.error (firstConflictError remaining)
      else persist_class_schedule_update env db class_schedule_id u schedule
    else persist_class_schedule_update env db class_schedule_id u schedule

/-- `SchedulingService.delete_class_schedule`: `BaseRepository.delete` (404 if
missing), then the database trigger subtracts the deleted row's slot duration. -/
def delete_class_schedule (env : Env) (db : DB) (class_schedule_id : Nat) :
    Except AppError DB :=
  match getClassScheduleRow db class_schedule_id with
  | none => Except.error (.notFound "ClassSchedule" class_schedule_id)
  | some schedule =>
    Except.ok
      { db with
        schedules := db.schedules.filter
          (fun cs => cs.class_schedule_id != class_schedule_id)
        instructors := triggerOnDelete db.instructors schedule.instructor_id
          (rowDurationHours env schedule) }

/-! ### Quarter operations (src/app/services/scheduling.py, src/app/repositories/scheduling.py) -/

/-- `QuarterCreate` schema. -/
structure QuarterCreateSchema where
  start_date : Int
  end_date : Int
deriving DecidableEq

/-- `QuarterRepository.get_by_dates`. -/
def get_by_dates (db : DB) (start_date end_date : Int) : Option QuarterRow :=
  db.quarters.find? (fun q => q.start_date == start_date && q.end_date == end_date)

/-- `QuarterRepository.get_overlapping_quarters`: the three-clause overlap
disjunction, minus `exclude_id` when truthy. -/
def get_overlapping_quarters (db : DB) (start_date end_date : Int)
    (exclude_id : Option Nat) : List QuarterRow :=
  let q := db.quarters.filter (fun qt =>
    (qt.start_date ≤ start_date && qt.end_date ≥ start_date) ||
    (qt.start_date ≤ end_date && qt.end_date ≥ end_date) ||
    (qt.start_date ≥ start_date && qt.end_date ≤ end_date))
  if pyTruthy exclude_id then
    q.filter (fun qt => qt.quarter_id != exclude_id.getD 0)
  else q

/-- `SchedulingService.create_quarter`: BadRequest when `end_date ≤ start_date`;
Conflict QUARTER_EXISTS on an identical pair; Conflict QUARTER_OVERLAP when the
overlap query is non-empty; otherwise insert. -/
def create_quarter (db : DB) (q : QuarterCreateSchema) :
    Except AppError (DB × QuarterRow) :=
  if q.end_date ≤ q.start_date then
    Except.error (.badRequest "INVALID_DATE_RANGE")
  else
    match get_by_dates db q.start_date q.end_date with
    | some _ => Except.error (.conflict "QUARTER_EXISTS")
    | none =>
      let overlapping := get_overlapping_quarters db q.start_date q.end_date none
      if !overlapping.isEmpty then
        Except.error (.conflict "QUARTER_OVERLAP")
      else
        let row : QuarterRow :=
          { quarter_id := db.next_quarter_id
            start_date := q.start_date
            end_date := q.end_date }
        Except.ok ({ db with quarters := db.quarters ++ [row]
                             next_quarter_id := db.next_quarter_id + 1 }, row)

/-! ### Instructor operations (src/app/services/hr.py, src/app/repositories/hr.py,
src/app/schemas/hr.py) -/

/-- `InstructorUpdate`: the updatable fields; the schema carries no
`hour_count` field. -/
structure InstructorUpdateSchema where
  first_name : Option String
  last_name : Option String
  phone_number : Option String
  email : Option String
  contract_id : Option Nat
  department_id : Option Nat
  active : Option Bool
deriving DecidableEq

/-- `InstructorRepository.is_email_taken`. -/
def is_email_taken (db : DB) (email : String) (exclude_id : Option Nat) : Bool :=
  let q := db.instructors.filter (fun i => i.email == email)
  let q := if pyTruthy exclude_id then
      q.filter (fun i => i.instructor_id != exclude_id.getD 0)
    else q
  !q.isEmpty

/-- `BaseRepository.update` on an instructor row: set exactly the provided
fields; `hour_count` is not a schema field so it is never among them. -/
def applyInstructorUpdateFields (i : InstructorRow) (u : InstructorUpdateSchema) :
    InstructorRow :=
  { i with
    first_name := u.first_name.getD i.first_name
    last_name := u.last_name.getD i.last_name
    phone_number := match u.phone_number with
      | some p => some p
      | none => i.phone_number
    email := u.email.getD i.email
    contract_id := match u.contract_id with
      | some c => some c
      | none => i.contract_id
    department_id := match u.department_id with
      | some d => some d
      | none => i.department_id
    active := u.active.getD i.active }

/-- `HRService.update_instructor`: load (404), email-uniqueness check when a
truthy changed email is provided, foreign-key checks for truthy provided
contract/department ids, then persist the provided fields. -/
def update_instructor (env : Env) (db : DB) (instructor_id : Nat)
    (u : InstructorUpdateSchema) : Except AppError DB :=
  match getInstructor db instructor_id with
  | none => Except.error (.notFound "Instructor" instructor_id)
  | some instructor =>
    let emailConflict : Bool := match u.email with
      | some e => e != "" && e != instructor.email &&
          is_email_taken db e (some instructor_id)
      | none => false
    if emailConflict then Except.error (.conflict "EMAIL_TAKEN")
    else
      let missingContract : Option Nat := match u.contract_id with
        | some c => if c != 0 && (getContract env c).isNone then some c else none
        | none => none
      match missingContract with
      | some c => Except.error (.notFound "Contract" c)
      | none =>
        let missingDepartment : Option Nat := match u.department_id with
          | some d => if d != 0 && !env.department_ids.contains d then some d else none
          | none => none
        match missingDepartment with
        | some d => Except.error (.notFound "Department" d)
        | none =>
          Except.ok
            { db with
              instructors := db.instructors.map (fun i =>
                if i.instructor_id == instructor_id then
                  applyInstructorUpdateFields i u
                else i) }

/-! ### Workload summary (src/app/repositories/hr.py, src/app/services/hr.py) -/

/-- The dict built by `InstructorRepository.get_workload_summary`. -/
structure WorkloadSummary where
  instructor_id : Nat
  full_name : String
  total_hours : Rat
  contract_limit : Option Nat
  available_hours : Option Rat
  utilization_percentage : Option Rat
deriving DecidableEq

/-- `InstructorRepository.get_workload_summary`: `{}` (here `none`) when the
instructor is missing; `available_hours` and `utilization_percentage` only when
`instructor.contract and instructor.contract.hour_limit` is truthy. -/
def get_workload_summary (env : Env) (db : DB) (instructor_id : Nat) :
    Option WorkloadSummary :=
  match getInstructor db instructor_id with
  | none => none
  | some instructor =>
    let limit : Option Nat := match instructorContract env instructor with
      | some contract => contract.hour_limit
      | none => none
    let truthyLimit : Option Nat := match limit with
      | some l => if l = 0 then none else some l
      | none => none
    some
      { instructor_id := instructor.instructor_id
        full_name := instructor.full_name
        total_hours := instructor.hour_count
        contract_limit := limit
        available_hours := truthyLimit.map (fun l => (l : Rat) - instructor.hour_count)
        utilization_percentage :=
          truthyLimit.map (fun l => instructor.hour_count / (l : Rat) * 100) }

/-- `InstructorWorkload` response schema, including the computed status. -/
structure InstructorWorkload where
  instructor_id : Nat
  full_name : String
  total_hours : Rat
  contract_limit : Option Nat
  available_hours : Option Rat
  utilization_percentage : Option Rat
  status : String
deriving DecidableEq

/-- `HRService.get_instructor_workload`: 404 on the empty summary, then the
status ladder over `utilization_percentage`. -/
def get_instructor_workload (env : Env) (db : DB) (instructor_id : Nat) :
    Except AppError InstructorWorkload :=
  match get_workload_summary env db instructor_id with
  | none => Except.error (.notFound "Instructor" instructor_id)
  | some w =>
    let status : String :=
      match w.utilization_percentage with
      | none => "NO_LIMIT"
      | some u =>
        if u ≥ 100 then "OVERLOADED"
        else if u ≥ 90 then "NEAR_LIMIT"
        else if u ≥ 70 then "HIGH_LOAD"
        else if u ≥ 50 then "MEDIUM_LOAD"
        else "LOW_LOAD"
    Except.ok
      { instructor_id := w.instructor_id
        full_name := w.full_name
        total_hours := w.total_hours
        contract_limit := w.contract_limit
        available_hours := w.available_hours
        utilization_percentage := w.utilization_percentage
        status := status }

/-! ### Reachability and the state invariant -/

/-- Total hours of an instructor's currently stored assignments. -/
def sumDurationHours (env : Env) (schedules : List ClassScheduleRow)
    (instructor_id : Nat) : Rat :=
  ((schedules.filter (fun cs => cs.instructor_id == instructor_id)).map
    (rowDurationHours env)).sum

/-- States reachable through the scheduling service's class-schedule write
operations, starting from an empty assignment table with all instructor hour
counters at their column default 0. -/
inductive Reachable (env : Env) : DB → Prop where
  | init (db : DB) (hsched : db.schedules = [])
      (hhours : ∀ i ∈ db.instructors, i.hour_count = 0) : Reachable env db
  | create (db db' : DB) (s : ClassScheduleCreateSchema) (row : ClassScheduleRow)
      (hprev : Reachable env db)
      (hstep : create_class_schedule env db s = .ok (db', row)) : Reachable env db'
  | update (db db' : DB) (id : Nat) (u : ClassScheduleUpdateSchema)
      (hprev : Reachable env db)
      (hstep : update_class_schedule env db id u = .ok db') : Reachable env db'
  | delete (db db' : DB) (id : Nat)
      (hprev : Reachable env db)
      (hstep : delete_class_schedule env db id = .ok db') : Reachable env db'

/-- The inductive invariant maintained by the three write operations. -/
structure StateWF (env : Env) (db : DB) : Prop where
  excl : exclusivityOK db.schedules = true
  uniq : idsDistinctOK db.schedules = true
  lt_next : ∀ r ∈ db.schedules, r.class_schedule_id < db.next_class_schedule_id
  fk : ∀ r ∈ db.schedules, rowFKOK env db.instructors db.quarters r = true
  hours : ∀ i ∈ db.instructors,
    i.hour_count = sumDurationHours env db.schedules i.instructor_id

/-- Observation used in theorem statements: the status string that
`get_instructor_workload` reports, when it succeeds. -/
def workloadStatusResult (env : Env) (db : DB) (instructor_id : Nat) : Option String :=
  match get_instructor_workload env db instructor_id with
  | .ok w => some w.status
  | .error _ => none

/-! ### Concrete sample data for evaluating the operations -/

def tbMorning : TimeBlockRow := ⟨1, 480, 600, 120⟩

def tbMidday : TimeBlockRow := ⟨2, 600, 720, 120⟩

def tbLong : TimeBlockRow := ⟨3, 480, 660, 180⟩

def dtbMon : DayTimeBlockRow := ⟨1, ⟨1, "Monday"⟩, tbMorning⟩

def dtbTue : DayTimeBlockRow := ⟨2, ⟨2, "Tuesday"⟩, tbMidday⟩

def dtbWed : DayTimeBlockRow := ⟨3, ⟨3, "Wednesday"⟩, tbLong⟩

def contractFT : ContractRow := ⟨1, "FullTime", some 40⟩

def contractSmall : ContractRow := ⟨2, "Adjunct", some 5⟩

def env0 : Env :=
  { classrooms := [⟨1, "101", 30⟩, ⟨2, "102", 30⟩]
    groups := [⟨1, 1, 25⟩, ⟨2, 2, 25⟩]
    dtbs := [dtbMon, dtbTue, dtbWed]
    contracts := [contractFT, contractSmall]
    department_ids := [1] }

def instructorAda (hc : Rat) : InstructorRow :=
  ⟨1, "Ada", "Lovelace", none, "ada", hc, some 1, some 1, true⟩

def instructorBob (hc : Rat) : InstructorRow :=
  ⟨2, "Bob", "Noble", none, "bob", hc, some 1, some 1, true⟩

def quarterOne : QuarterRow := ⟨1, 0, 90⟩

def db0 : DB :=
  { schedules := []
    instructors := [instructorAda 0, instructorBob 0]
    quarters := [quarterOne]
    next_class_schedule_id := 1
    next_quarter_id := 2 }

def s0 : ClassScheduleCreateSchema := ⟨"Algebra", 1, 1, 1, 1, 1⟩

def row1 : ClassScheduleRow := ⟨1, "Algebra", 1, 1, 1, 1, 1⟩

def db1 : DB :=
  { schedules := [row1]
    instructors := [instructorAda 2, instructorBob 0]
    quarters := [quarterOne]
    next_class_schedule_id := 2
    next_quarter_id := 2 }

def s1 : ClassScheduleCreateSchema := ⟨"Geometry", 1, 1, 2, 2, 2⟩

def row2 : ClassScheduleRow := ⟨2, "Geometry", 1, 1, 2, 2, 2⟩

def db2 : DB :=
  { schedules := [row1, row2]
    instructors := [instructorAda 2, instructorBob 2]
    quarters := [quarterOne]
    next_class_schedule_id := 3
    next_quarter_id := 2 }

/-- A state for the overload-projection analysis: the instructor has 4 assigned
hours (two 2-hour slots) against a 5-hour contract limit. -/
def rowB : ClassScheduleRow := ⟨2, "Calculus", 1, 2, 1, 1, 1⟩

def instructorCap : InstructorRow :=
  ⟨1, "Ada", "Lovelace", none, "ada", 4, some 2, some 1, true⟩

def db5 : DB :=
  { schedules := [row1, rowB]
    instructors := [instructorCap]
    quarters := [quarterOne]
    next_class_schedule_id := 3
    next_quarter_id := 2 }

/-- Move the first assignment to the 3-hour Wednesday slot. -/
def u5 : ClassScheduleUpdateSchema := ⟨none, none, some 3, none, none, none⟩

/-- An instructor one hour below a 40-hour limit (spec §8 scenario 8). -/
def instructorBusy : InstructorRow :=
  ⟨1, "Ada", "Lovelace", none, "ada", 39, some 1, some 1, true⟩

def db8 : DB :=
  { schedules := []
    instructors := [instructorBusy]
    quarters := [quarterOne]
    next_class_schedule_id := 1
    next_quarter_id := 2 }

/-- Instructors exercising each workload-status threshold (spec §8 case 5). -/
def db6 : DB :=
  { schedules := []
    instructors := [⟨1, "Nia", "Nolimit", none, "nia", 20, none, none, true⟩,
                    ⟨2, "Ned", "Near", none, "ned", 39, some 1, none, true⟩,
                    ⟨3, "Ovi", "Over", none, "ovi", 42, some 1, none, true⟩,
                    ⟨4, "Mel", "Mid", none, "mel", 25, some 1, none, true⟩]
    quarters := []
    next_class_schedule_id := 1
    next_quarter_id := 1 }

/-- A state with a stored assignment whose instructor lookup misses. -/
def db10 : DB :=
  { schedules := [row1]
    instructors := []
    quarters := [quarterOne]
    next_class_schedule_id := 2
    next_quarter_id := 2 }

/-- An update payload that re-provides the stored values unchanged. -/
def u7 : ClassScheduleUpdateSchema := ⟨none, none, none, none, some 1, none⟩

/-- An instructor update touching only the name. -/
def u9 : InstructorUpdateSchema := ⟨some "Grace", none, none, none, none, none, none⟩

/-- A completely empty storage state. -/
def dbEmpty : DB :=
  { schedules := []
    instructors := []
    quarters := []
    next_class_schedule_id := 1
    next_quarter_id := 1 }

/-- A fresh quarter request over empty storage. -/
def q8 : QuarterCreateSchema := ⟨100, 190⟩

/-- `db0` after renaming instructor 1 through `update_instructor`. -/
def db9 : DB :=
  { schedules := []
    instructors := [⟨1, "Grace", "Lovelace", none, "ada", 0, some 1, some 1, true⟩,
                    instructorBob 0]
    quarters := [quarterOne]
    next_class_schedule_id := 1
    next_quarter_id := 2 }

/-! ### Basic lemmas about the constraint predicates -/

theorem noSharedKey_iff (a b : ClassScheduleRow) :
    noSharedKey a b = true ↔
      ¬(a.day_time_block_id = b.day_time_block_id ∧ a.quarter_id = b.quarter_id ∧
          a.instructor_id = b.instructor_id) ∧
      ¬(a.day_time_block_id = b.day_time_block_id ∧ a.quarter_id = b.quarter_id ∧
          a.classroom_id = b.classroom_id) ∧
      ¬(a.day_time_block_id = b.day_time_block_id ∧ a.quarter_id = b.quarter_id ∧
          a.group_id = b.group_id) := by
  simp only [noSharedKey, Bool.and_eq_true, Bool.not_eq_true', Bool.and_eq_false_iff,
    beq_eq_false_iff_ne, ne_eq, not_and]
  tauto

theorem noSharedKey_symm (a b : ClassScheduleRow) :
    noSharedKey a b = noSharedKey b a := by
  rw [Bool.eq_iff_iff, noSharedKey_iff, noSharedKey_iff]
  constructor <;>
    · rintro ⟨h1, h2, h3⟩
      refine ⟨fun ⟨x, y, z⟩ => h1 ⟨x.symm, y.symm, z.symm⟩,
        fun ⟨x, y, z⟩ => h2 ⟨x.symm, y.symm, z.symm⟩,
        fun ⟨x, y, z⟩ => h3 ⟨x.symm, y.symm, z.symm⟩⟩

theorem exclusivityOK_iff_pairwise (l : List ClassScheduleRow) :
    exclusivityOK l = true ↔ l.Pairwise (fun a b => noSharedKey a b = true) := by
  induction l with
  | nil => simp [exclusivityOK]
  | cons r rs ih =>
    simp [exclusivityOK, List.pairwise_cons, ih, List.all_eq_true, and_comm]

theorem idsDistinctOK_iff_pairwise (l : List ClassScheduleRow) :
    idsDistinctOK l = true ↔
      l.Pairwise (fun a b => a.class_schedule_id ≠ b.class_schedule_id) := by
  induction l with
  | nil => simp [idsDistinctOK]
  | cons r rs ih =>
    simp only [idsDistinctOK, Bool.and_eq_true, List.all_eq_true, List.pairwise_cons, ih,
      bne_iff_ne, ne_eq]
    constructor
    · rintro ⟨h1, h2⟩
      exact ⟨fun b hb e => h1 b hb (e.symm), h2⟩
    · rintro ⟨h1, h2⟩
      exact ⟨fun b hb e => h1 b hb (e.symm), h2⟩

/-- Pairwise facts specialise to any pair of distinct members, for a
symmetric relation. -/
theorem pairwise_distinct_members {R : ClassScheduleRow → ClassScheduleRow → Prop}
    (hsymm : ∀ a b, R a b → R b a) {l : List ClassScheduleRow}
    (h : l.Pairwise R) :
    ∀ a ∈ l, ∀ b ∈ l, a ≠ b → R a b := by
  induction l with
  | nil => intro a ha; simp at ha
  | cons r rs ih =>
    rw [List.pairwise_cons] at h
    intro a ha b hb hne
    rcases List.mem_cons.mp ha with ha' | ha' <;>
      rcases List.mem_cons.mp hb with hb' | hb'
    · exact absurd (ha'.trans hb'.symm) hne
    · exact ha' ▸ h.1 b hb'
    · subst hb'; exact hsymm b a (h.1 a ha')
    · exact ih h.2 a ha' b hb' hne

/-! ### List bookkeeping lemmas for the write operations -/

theorem map_update_eq_self (l : List ClassScheduleRow) (id : Nat)
    (newRow : ClassScheduleRow) (h : ∀ b ∈ l, b.class_schedule_id ≠ id) :
    l.map (fun r => if r.class_schedule_id == id then newRow else r) = l := by
  induction l with
  | nil => rfl
  | cons r rs ih =>
    have hr : (r.class_schedule_id == id) = false :=
      beq_eq_false_iff_ne.mpr (h r (List.mem_cons_self r rs))
    simp only [List.map_cons, hr, Bool.false_eq_true, if_false,
      ih (fun b hb => h b (List.mem_cons_of_mem r hb))]

theorem pairwise_map_update (l : List ClassScheduleRow) (id : Nat)
    (newRow : ClassScheduleRow)
    (huniq : l.Pairwise (fun a b => a.class_schedule_id ≠ b.class_schedule_id))
    (hexcl : l.Pairwise (fun a b => noSharedKey a b = true))
    (hok : ∀ t ∈ l, t.class_schedule_id ≠ id → noSharedKey newRow t = true) :
    (l.map (fun r => if r.class_schedule_id == id then newRow else r)).Pairwise
      (fun a b => noSharedKey a b = true) := by
  induction l with
  | nil => exact List.Pairwise.nil
  | cons r rs ih =>
    rw [List.pairwise_cons] at huniq hexcl
    simp only [List.map_cons]
    by_cases hr : r.class_schedule_id = id
    · have hrs : ∀ b ∈ rs, b.class_schedule_id ≠ id := by
        intro b hb he
        exact huniq.1 b hb (hr.trans he.symm)
      rw [if_pos (beq_iff_eq.mpr hr), map_update_eq_self rs id newRow hrs]
      refine List.pairwise_cons.mpr ⟨?_, hexcl.2⟩
      intro b hb
      exact hok b (List.mem_cons_of_mem r hb) (hrs b hb)
    · rw [if_neg (by simpa using hr)]
      refine List.pairwise_cons.mpr ⟨?_, ih huniq.2 hexcl.2
        (fun t ht hne => hok t (List.mem_cons_of_mem r ht) hne)⟩
      intro b' hb'
      rcases List.mem_map.mp hb' with ⟨b, hb, hbeq⟩
      by_cases hbid : b.class_schedule_id = id
      · rw [if_pos (beq_iff_eq.mpr hbid)] at hbeq
        rw [← hbeq, noSharedKey_symm]
        exact hok r (List.mem_cons_self r rs) hr
      · rw [if_neg (by simpa using hbid)] at hbeq
        rw [← hbeq]
        exact hexcl.1 b hb

theorem pairwise_ids_map_update (l : List ClassScheduleRow) (id : Nat)
    (newRow : ClassScheduleRow) (hid : newRow.class_schedule_id = id)
    (huniq : l.Pairwise (fun a b => a.class_schedule_id ≠ b.class_schedule_id)) :
    (l.map (fun r => if r.class_schedule_id == id then newRow else r)).Pairwise
      (fun a b => a.class_schedule_id ≠ b.class_schedule_id) := by
  rw [List.pairwise_map]
  refine huniq.imp_of_mem ?_
  intro a b _ _ hne
  by_cases ha : a.class_schedule_id = id <;> by_cases hb : b.class_schedule_id = id
  · exact absurd (ha.trans hb.symm) hne
  · rw [if_pos (beq_iff_eq.mpr ha), if_neg (by simpa using hb), hid]
    exact fun e => hb e.symm
  · rw [if_neg (by simpa using ha), if_pos (beq_iff_eq.mpr hb), hid]
    exact ha
  · rw [if_neg (by simpa using ha), if_neg (by simpa using hb)]
    exact hne

theorem sumDurationHours_cons (env : Env) (r : ClassScheduleRow)
    (l : List ClassScheduleRow) (iid : Nat) :
    sumDurationHours env (r :: l) iid =
      (if r.instructor_id == iid then rowDurationHours env r else 0) +
        sumDurationHours env l iid := by
  by_cases h : r.instructor_id = iid
  · simp [sumDurationHours, List.filter_cons, beq_iff_eq.mpr h]
  · simp [sumDurationHours, List.filter_cons, beq_eq_false_iff_ne.mpr h, h]

theorem sumDurationHours_append_single (env : Env) (l : List ClassScheduleRow)
    (row : ClassScheduleRow) (iid : Nat) :
    sumDurationHours env (l ++ [row]) iid =
      sumDurationHours env l iid +
        (if row.instructor_id == iid then rowDurationHours env row else 0) := by
  induction l with
  | nil =>
    simp only [List.nil_append, sumDurationHours_cons]
    simp [sumDurationHours]
  | cons r rs ih =>
    simp only [List.cons_append, sumDurationHours_cons, ih]
    ring

theorem filter_ne_eq_self (l : List ClassScheduleRow) (id : Nat)
    (h : ∀ b ∈ l, b.class_schedule_id ≠ id) :
    l.filter (fun cs => cs.class_schedule_id != id) = l := by
  induction l with
  | nil => rfl
  | cons r rs ih =>
    rw [List.filter_cons,
      if_pos (by simpa using h r (List.mem_cons_self r rs)),
      ih (fun b hb => h b (List.mem_cons_of_mem r hb))]

theorem sumDurationHours_filter_erase (env : Env) (l : List ClassScheduleRow)
    (id : Nat) (row : ClassScheduleRow)
    (hfind : l.find? (fun cs => cs.class_schedule_id == id) = some row)
    (huniq : l.Pairwise (fun a b => a.class_schedule_id ≠ b.class_schedule_id))
    (iid : Nat) :
    sumDurationHours env (l.filter (fun cs => cs.class_schedule_id != id)) iid =
      sumDurationHours env l iid -
        (if row.instructor_id == iid then rowDurationHours env row else 0) := by
  induction l with
  | nil => simp at hfind
  | cons r rs ih =>
    rw [List.pairwise_cons] at huniq
    by_cases hr : r.class_schedule_id = id
    · rw [List.find?_cons_of_pos _ (by simpa using hr)] at hfind
      have hrow : r = row := by injection hfind
      subst hrow
      have hrs : ∀ b ∈ rs, b.class_schedule_id ≠ id := by
        intro b hb he
        exact huniq.1 b hb (hr.trans he.symm)
      rw [List.filter_cons, if_neg (by simpa using hr),
        filter_ne_eq_self rs id hrs, sumDurationHours_cons]
      ring
    · rw [List.find?_cons_of_neg _ (by simpa using hr)] at hfind
      rw [List.filter_cons, if_pos (by simpa using hr), sumDurationHours_cons,
        sumDurationHours_cons, ih hfind huniq.2]
      ring

theorem sumDurationHours_map_update (env : Env) (l : List ClassScheduleRow)
    (id : Nat) (oldRow newRow : ClassScheduleRow)
    (hfind : l.find? (fun cs => cs.class_schedule_id == id) = some oldRow)
    (huniq : l.Pairwise (fun a b => a.class_schedule_id ≠ b.class_schedule_id))
    (iid : Nat) :
    sumDurationHours env
        (l.map (fun r => if r.class_schedule_id == id then newRow else r)) iid =
      sumDurationHours env l iid -
        (if oldRow.instructor_id == iid then rowDurationHours env oldRow else 0) +
        (if newRow.instructor_id == iid then rowDurationHours env newRow else 0) := by
  induction l with
  | nil => simp at hfind
  | cons r rs ih =>
    rw [List.pairwise_cons] at huniq
    by_cases hr : r.class_schedule_id = id
    · rw [List.find?_cons_of_pos _ (by simpa using hr)] at hfind
      have hrow : r = oldRow := by injection hfind
      subst hrow
      have hrs : ∀ b ∈ rs, b.class_schedule_id ≠ id := by
        intro b hb he
        exact huniq.1 b hb (hr.trans he.symm)
      rw [List.map_cons, if_pos (by simpa using hr),
        map_update_eq_self rs id newRow hrs, sumDurationHours_cons,
        sumDurationHours_cons]
      ring
    · rw [List.find?_cons_of_neg _ (by simpa using hr)] at hfind
      rw [List.map_cons, if_neg (by simpa using hr), sumDurationHours_cons,
        sumDurationHours_cons, ih hfind huniq.2]
      ring

/-! ### Lemmas about the hour-count triggers -/

theorem triggerOnCreate_instructor_id (l : List InstructorRow) (tid : Nat) (h : Rat) :
    ∀ i ∈ triggerOnCreate l tid h, ∃ j ∈ l, i.instructor_id = j.instructor_id ∧
      i.hour_count = j.hour_count + (if j.instructor_id == tid then h else 0) := by
  intro i hi
  rcases List.mem_map.mp hi with ⟨j, hj, hje⟩
  refine ⟨j, hj, ?_⟩
  by_cases hjt : j.instructor_id = tid
  · rw [← hje, if_pos (beq_iff_eq.mpr hjt), if_pos (beq_iff_eq.mpr hjt)]
    exact ⟨rfl, rfl⟩
  · rw [← hje, if_neg (by simpa using hjt), if_neg (by simpa using hjt)]
    simp

theorem triggerOnDelete_instructor_id (l : List InstructorRow) (tid : Nat) (h : Rat) :
    ∀ i ∈ triggerOnDelete l tid h, ∃ j ∈ l, i.instructor_id = j.instructor_id ∧
      i.hour_count = j.hour_count - (if j.instructor_id == tid then h else 0) := by
  intro i hi
  rcases List.mem_map.mp hi with ⟨j, hj, hje⟩
  refine ⟨j, hj, ?_⟩
  by_cases hjt : j.instructor_id = tid
  · rw [← hje, if_pos (beq_iff_eq.mpr hjt), if_pos (beq_iff_eq.mpr hjt)]
    exact ⟨rfl, rfl⟩
  · rw [← hje, if_neg (by simpa using hjt), if_neg (by simpa using hjt)]
    simp

theorem find_isSome_map_id_preserving (l : List InstructorRow)
    (g : InstructorRow → InstructorRow)
    (hg : ∀ i, (g i).instructor_id = i.instructor_id) (x : Nat) :
    ((l.map g).find? (fun i => i.instructor_id == x)).isSome =
      (l.find? (fun i => i.instructor_id == x)).isSome := by
  induction l with
  | nil => rfl
  | cons r rs ih =>
    by_cases hr : r.instructor_id = x
    · rw [List.map_cons, List.find?_cons_of_pos _ (by simp [hg, hr]),
        List.find?_cons_of_pos _ (by simpa using hr)]
      rfl
    · rw [List.map_cons, List.find?_cons_of_neg _ (by simp [hg, hr]),
        List.find?_cons_of_neg _ (by simpa using hr), ih]

theorem rowFKOK_triggerOnCreate (env : Env) (l : List InstructorRow)
    (quarters : List QuarterRow) (tid : Nat) (h : Rat) (r : ClassScheduleRow) :
    rowFKOK env (triggerOnCreate l tid h) quarters r =
      rowFKOK env l quarters r := by
  unfold rowFKOK triggerOnCreate
  rw [find_isSome_map_id_preserving]
  intro i
  by_cases hit : i.instructor_id = tid
  · rw [if_pos (beq_iff_eq.mpr hit)]
  · rw [if_neg (by simpa using hit)]

theorem rowFKOK_triggerOnDelete (env : Env) (l : List InstructorRow)
    (quarters : List QuarterRow) (tid : Nat) (h : Rat) (r : ClassScheduleRow) :
    rowFKOK env (triggerOnDelete l tid h) quarters r =
      rowFKOK env l quarters r := by
  unfold rowFKOK triggerOnDelete
  rw [find_isSome_map_id_preserving]
  intro i
  by_cases hit : i.instructor_id = tid
  · rw [if_pos (beq_iff_eq.mpr hit)]
  · rw [if_neg (by simpa using hit)]

theorem rowFKOK_triggerOnReassign (env : Env) (l : List InstructorRow)
    (quarters : List QuarterRow) (oldId newId : Nat) (oh nh : Rat)
    (r : ClassScheduleRow) :
    rowFKOK env (triggerOnReassign l oldId newId oh nh) quarters r =
      rowFKOK env l quarters r := by
  unfold triggerOnReassign
  rw [rowFKOK_triggerOnCreate, rowFKOK_triggerOnDelete]

theorem triggerOnReassign_member (l : List InstructorRow) (oldId newId : Nat)
    (oh nh : Rat) :
    ∀ i ∈ triggerOnReassign l oldId newId oh nh, ∃ j ∈ l,
      i.instructor_id = j.instructor_id ∧
      i.hour_count = j.hour_count - (if j.instructor_id == oldId then oh else 0) +
        (if j.instructor_id == newId then nh else 0) := by
  intro i hi
  rcases triggerOnCreate_instructor_id _ newId nh i hi with ⟨k, hk, hki, hkc⟩
  rcases triggerOnDelete_instructor_id l oldId oh k hk with ⟨j, hj, hji, hjc⟩
  refine ⟨j, hj, hki.trans hji, ?_⟩
  rw [hkc, hjc, hji]

/-- The row that `getClassScheduleRow` returns is a member carrying the id. -/
theorem getClassScheduleRow_spec (db : DB) (id : Nat) (row : ClassScheduleRow)
    (h : getClassScheduleRow db id = some row) :
    row ∈ db.schedules ∧ row.class_schedule_id = id := by
  refine ⟨List.mem_of_find?_eq_some h, ?_⟩
  have := List.find?_some h
  simpa using this

theorem applyUpdateFields_id (schedule : ClassScheduleRow)
    (u : ClassScheduleUpdateSchema) :
    (applyUpdateFields schedule u).class_schedule_id = schedule.class_schedule_id := rfl

/-! ### Inversion of the write operations on success -/

theorem create_class_schedule_ok_inv (env : Env) (db : DB)
    (s : ClassScheduleCreateSchema) (db' : DB) (row : ClassScheduleRow)
    (h : create_class_schedule env db s = .ok (db', row)) :
    ∃ dtb, getDayTimeBlock env s.day_time_block_id = some dtb ∧
      (validate_schedule env db s).is_valid = true ∧
      row = newClassScheduleRow db s ∧
      insertOK env db row = true ∧
      db' = { db with
              schedules := db.schedules ++ [row]
              next_class_schedule_id := db.next_class_schedule_id + 1
              instructors := triggerOnCreate db.instructors s.instructor_id
                (slotDurationHours dtb) } := by
  unfold create_class_schedule at h
  split at h
  · simp at h
  split at h
  · simp at h
  rename_i dtb hdtb
  split at h
  · simp at h
  split at h
  · simp at h
  split at h
  · simp at h
  simp only [] at h
  split at h
  · simp at h
  rename_i hvalid
  split at h
  · simp only [Except.ok.injEq, Prod.mk.injEq] at h
    obtain ⟨hdb, hrow⟩ := h
    subst hrow
    exact ⟨dtb, hdtb, by simpa using hvalid, rfl, by assumption, hdb.symm⟩
  · simp at h

theorem update_class_schedule_ok_inv (env : Env) (db : DB) (id : Nat)
    (u : ClassScheduleUpdateSchema) (db' : DB)
    (h : update_class_schedule env db id u = .ok db') :
    ∃ schedule, getClassScheduleRow db id = some schedule ∧
      updateCommitOK env db (applyUpdateFields schedule u) = true ∧
      db' = { db with
              schedules := db.schedules.map (fun cs =>
                if cs.class_schedule_id == id then applyUpdateFields schedule u
                else cs)
              instructors := triggerOnReassign db.instructors
                schedule.instructor_id (applyUpdateFields schedule u).instructor_id
                (rowDurationHours env schedule)
                (rowDurationHours env (applyUpdateFields schedule u)) } := by
  unfold update_class_schedule at h
  split at h
  · simp at h
  rename_i schedule hfound
  refine ⟨schedule, hfound, ?_⟩
  have hper : persist_class_schedule_update env db id u schedule = .ok db' := by
    split at h
    · simp only [] at h
      split at h
      · simp at h
      · exact h
    · exact h
  unfold persist_class_schedule_update at hper
  simp only [] at hper
  split at hper
  · simp only [Except.ok.injEq] at hper
    exact ⟨by assumption, hper.symm⟩
  · simp at hper

theorem delete_class_schedule_ok_inv (env : Env) (db : DB) (id : Nat) (db' : DB)
    (h : delete_class_schedule env db id = .ok db') :
    ∃ schedule, getClassScheduleRow db id = some schedule ∧
      db' = { db with
              schedules := db.schedules.filter
                (fun cs => cs.class_schedule_id != id)
              instructors := triggerOnDelete db.instructors schedule.instructor_id
                (rowDurationHours env schedule) } := by
  unfold delete_class_schedule at h
  split at h
  · simp at h
  rename_i schedule hfound
  simp only [Except.ok.injEq] at h
  exact ⟨schedule, hfound, h.symm⟩

theorem insertOK_elim (env : Env) (db : DB) (r : ClassScheduleRow)
    (h : insertOK env db r = true) :
    (∀ t ∈ db.schedules, noSharedKey r t = true) ∧
      rowFKOK env db.instructors db.quarters r = true := by
  simp only [insertOK, Bool.and_eq_true, List.all_eq_true] at h
  exact h

theorem updateCommitOK_elim (env : Env) (db : DB) (r : ClassScheduleRow)
    (h : updateCommitOK env db r = true) :
    (∀ t ∈ db.schedules, t.class_schedule_id ≠ r.class_schedule_id →
      noSharedKey r t = true) ∧
      rowFKOK env db.instructors db.quarters r = true := by
  simp only [updateCommitOK, Bool.and_eq_true, List.all_eq_true] at h
  refine ⟨?_, h.2⟩
  intro t ht hne
  exact h.1 t (List.mem_filter.mpr ⟨ht, by simpa using hne⟩)

theorem ite_beq_comm (a b : Nat) (x : Rat) :
    (if a == b then x else 0) = (if b == a then x else 0) := by
  by_cases h : a = b
  · rw [if_pos (beq_iff_eq.mpr h), if_pos (beq_iff_eq.mpr h.symm)]
  · rw [if_neg (by simpa using h), if_neg (by simpa using fun e => h e.symm)]

/-- Every state reachable through the class-schedule write operations satisfies
the inductive invariant. -/
theorem reachable_wf (env : Env) (db : DB) (h : Reachable env db) :
    StateWF env db := by
  induction h with
  | init db hs hh =>
    constructor
    · rw [hs]; rfl
    · rw [hs]; rfl
    · rw [hs]; intro r hr; simp at hr
    · rw [hs]; intro r hr; simp at hr
    · intro i hi
      rw [hs]
      simpa [sumDurationHours] using hh i hi
  | create db db' s row hprev hstep ih =>
    obtain ⟨dtb, hdtb, hvalid, hrow, hins, hdb'⟩ :=
      create_class_schedule_ok_inv env db s db' row hstep
    obtain ⟨hins1, hins2⟩ := insertOK_elim env db row hins
    have hrid : row.class_schedule_id = db.next_class_schedule_id := by
      rw [hrow]; rfl
    have hrins : row.instructor_id = s.instructor_id := by
      rw [hrow]; rfl
    have hrdtb : row.day_time_block_id = s.day_time_block_id := by
      rw [hrow]; rfl
    subst hdb'
    constructor
    · dsimp only
      rw [exclusivityOK_iff_pairwise, List.pairwise_append]
      refine ⟨(exclusivityOK_iff_pairwise _).mp ih.excl,
        List.pairwise_singleton _ _, ?_⟩
      intro a ha b hb
      rw [List.mem_singleton] at hb
      subst hb
      rw [noSharedKey_symm]
      exact hins1 a ha
    · dsimp only
      rw [idsDistinctOK_iff_pairwise, List.pairwise_append]
      refine ⟨(idsDistinctOK_iff_pairwise _).mp ih.uniq,
        List.pairwise_singleton _ _, ?_⟩
      intro a ha b hb
      rw [List.mem_singleton] at hb
      subst hb
      rw [hrid]
      exact Nat.ne_of_lt (ih.lt_next a ha)
    · dsimp only
      intro r hr
      rcases List.mem_append.mp hr with hr | hr
      · exact Nat.lt_succ_of_lt (ih.lt_next r hr)
      · rw [List.mem_singleton] at hr
        subst hr
        rw [hrid]
        exact Nat.lt_succ_self _
    · dsimp only
      intro r hr
      rw [rowFKOK_triggerOnCreate]
      rcases List.mem_append.mp hr with hr | hr
      · exact ih.fk r hr
      · rw [List.mem_singleton] at hr
        subst hr
        exact hins2
    · dsimp only
      intro i hi
      rcases triggerOnCreate_instructor_id db.instructors s.instructor_id
        (slotDurationHours dtb) i hi with ⟨j, hj, hid, hc⟩
      rw [hc, hid, sumDurationHours_append_single, ← ih.hours j hj]
      have hrowdur : rowDurationHours env row = slotDurationHours dtb := by
        unfold rowDurationHours
        rw [hrdtb, hdtb]
      congr 1
      by_cases hji : j.instructor_id = s.instructor_id
      · rw [if_pos (beq_iff_eq.mpr hji),
          if_pos (beq_iff_eq.mpr (by rw [hrins, hji])), hrowdur]
      · have hne : row.instructor_id ≠ j.instructor_id := by
          rw [hrins]; exact fun e => hji e.symm
        rw [if_neg (by simpa using hji), if_neg (by simpa using hne)]
  | update db db' id u hprev hstep ih =>
    obtain ⟨schedule, hfound, hcommit, hdb'⟩ :=
      update_class_schedule_ok_inv env db id u db' hstep
    obtain ⟨hmem, hsid⟩ := getClassScheduleRow_spec db id schedule hfound
    obtain ⟨hc1, hc2⟩ := updateCommitOK_elim env db (applyUpdateFields schedule u) hcommit
    have hnewid : (applyUpdateFields schedule u).class_schedule_id = id := by
      rw [applyUpdateFields_id, hsid]
    have hfind2 : db.schedules.find? (fun cs => cs.class_schedule_id == id) =
        some schedule := hfound
    subst hdb'
    constructor
    · dsimp only
      rw [exclusivityOK_iff_pairwise]
      refine pairwise_map_update _ _ _ ((idsDistinctOK_iff_pairwise _).mp ih.uniq)
        ((exclusivityOK_iff_pairwise _).mp ih.excl) ?_
      intro t ht hne
      exact hc1 t ht (fun e => hne (e.trans hnewid))
    · dsimp only
      rw [idsDistinctOK_iff_pairwise]
      exact pairwise_ids_map_update _ _ _ hnewid
        ((idsDistinctOK_iff_pairwise _).mp ih.uniq)
    · dsimp only
      intro r hr
      rcases List.mem_map.mp hr with ⟨t, ht, hteq⟩
      by_cases htid : t.class_schedule_id = id
      · rw [if_pos (beq_iff_eq.mpr htid)] at hteq
        rw [← hteq, hnewid, ← hsid]
        exact ih.lt_next schedule hmem
      · rw [if_neg (by simpa using htid)] at hteq
        rw [← hteq]
        exact ih.lt_next t ht
    · dsimp only
      intro r hr
      rw [rowFKOK_triggerOnReassign]
      rcases List.mem_map.mp hr with ⟨t, ht, hteq⟩
      by_cases htid : t.class_schedule_id = id
      · rw [if_pos (beq_iff_eq.mpr htid)] at hteq
        rw [← hteq]
        exact hc2
      · rw [if_neg (by simpa using htid)] at hteq
        rw [← hteq]
        exact ih.fk t ht
    · dsimp only
      intro i hi
      rcases triggerOnReassign_member db.instructors schedule.instructor_id
        (applyUpdateFields schedule u).instructor_id
        (rowDurationHours env schedule)
        (rowDurationHours env (applyUpdateFields schedule u)) i hi with
        ⟨j, hj, hid, hc⟩
      rw [hc, hid, sumDurationHours_map_update env db.schedules id schedule
        (applyUpdateFields schedule u) hfind2
        ((idsDistinctOK_iff_pairwise _).mp ih.uniq), ← ih.hours j hj,
        ite_beq_comm schedule.instructor_id j.instructor_id,
        ite_beq_comm (applyUpdateFields schedule u).instructor_id j.instructor_id]
  | delete db db' id hprev hstep ih =>
    obtain ⟨schedule, hfound, hdb'⟩ := delete_class_schedule_ok_inv env db id db' hstep
    have hfind2 : db.schedules.find? (fun cs => cs.class_schedule_id == id) =
        some schedule := hfound
    subst hdb'
    constructor
    · dsimp only
      rw [exclusivityOK_iff_pairwise]
      exact ((exclusivityOK_iff_pairwise _).mp ih.excl).sublist
        (List.filter_sublist _)
    · dsimp only
      rw [idsDistinctOK_iff_pairwise]
      exact ((idsDistinctOK_iff_pairwise _).mp ih.uniq).sublist
        (List.filter_sublist _)
    · dsimp only
      intro r hr
      exact ih.lt_next r (List.mem_of_mem_filter hr)
    · dsimp only
      intro r hr
      rw [rowFKOK_triggerOnDelete]
      exact ih.fk r (List.mem_of_mem_filter hr)
    · dsimp only
      intro i hi
      rcases triggerOnDelete_instructor_id db.instructors schedule.instructor_id
        (rowDurationHours env schedule) i hi with ⟨j, hj, hid, hc⟩
      rw [hc, hid, sumDurationHours_filter_erase env db.schedules id schedule hfind2
        ((idsDistinctOK_iff_pairwise _).mp ih.uniq), ← ih.hours j hj,
        ite_beq_comm schedule.instructor_id j.instructor_id]

theorem find?_map_id_preserving (l : List InstructorRow)
    (g : InstructorRow → InstructorRow)
    (hg : ∀ i, (g i).instructor_id = i.instructor_id) (x : Nat) :
    (l.map g).find? (fun i => i.instructor_id == x) =
      (l.find? (fun i => i.instructor_id == x)).map g := by
  induction l with
  | nil => rfl
  | cons r rs ih =>
    by_cases hr : r.instructor_id = x
    · rw [List.map_cons, List.find?_cons_of_pos _ (by simp [hg, hr]),
        List.find?_cons_of_pos _ (by simpa using hr)]
      rfl
    · rw [List.map_cons, List.find?_cons_of_neg _ (by simp [hg, hr]),
        List.find?_cons_of_neg _ (by simpa using hr), ih]

theorem triggerOnCreate_find? (l : List InstructorRow) (tid : Nat) (hrs : Rat)
    (x : Nat) :
    (triggerOnCreate l tid hrs).find? (fun i => i.instructor_id == x) =
      (l.find? (fun i => i.instructor_id == x)).map
        (fun i => if i.instructor_id == tid then
            { i with hour_count := i.hour_count + hrs } else i) := by
  unfold triggerOnCreate
  refine find?_map_id_preserving _ _ ?_ x
  intro i
  by_cases h1 : i.instructor_id = tid
  · rw [if_pos (beq_iff_eq.mpr h1)]
  · rw [if_neg (by simpa using h1)]

theorem triggerOnDelete_find? (l : List InstructorRow) (tid : Nat) (hrs : Rat)
    (x : Nat) :
    (triggerOnDelete l tid hrs).find? (fun i => i.instructor_id == x) =
      (l.find? (fun i => i.instructor_id == x)).map
        (fun i => if i.instructor_id == tid then
            { i with hour_count := i.hour_count - hrs } else i) := by
  unfold triggerOnDelete
  refine find?_map_id_preserving _ _ ?_ x
  intro i
  by_cases h1 : i.instructor_id = tid
  · rw [if_pos (beq_iff_eq.mpr h1)]
  · rw [if_neg (by simpa using h1)]

theorem triggerOnReassign_find? (l : List InstructorRow) (o n : Nat) (oh nh : Rat)
    (x : Nat) :
    (triggerOnReassign l o n oh nh).find? (fun i => i.instructor_id == x) =
      (l.find? (fun i => i.instructor_id == x)).map
        (fun i =>
          (fun i1 => if i1.instructor_id == n then
              { i1 with hour_count := i1.hour_count + nh } else i1)
            (if i.instructor_id == o then
              { i with hour_count := i.hour_count - oh } else i)) := by
  unfold triggerOnReassign triggerOnDelete triggerOnCreate
  rw [List.map_map]
  refine find?_map_id_preserving _ _ ?_ x
  intro i
  dsimp only [Function.comp]
  by_cases h1 : i.instructor_id = o <;> by_cases h2 : i.instructor_id = n <;>
    simp [h1, h2] <;> split <;> simp [h1, h2]

/-! ### Reachability of the sample states -/

theorem create_step1 : create_class_schedule env0 db0 s0 = .ok (db1, row1) := by
  simp [create_class_schedule, getQuarter, getDayTimeBlock, getGroup,
    getInstructor, getClassroom, validate_schedule, instructor_conflict_entry,
    classroom_conflict_entry, group_conflict_entry, check_instructor_conflict,
    check_classroom_conflict, check_group_conflict, workload_warning_entry,
    capacity_warning_entry, instructorContract, getContract, insertOK, rowFKOK,
    noSharedKey, triggerOnCreate, slotDurationHours, newClassScheduleRow, db0, db1,
    env0, s0, row1,
    instructorAda, instructorBob, quarterOne, dtbMon, dtbTue, dtbWed, tbMorning,
    tbMidday, tbLong, contractFT, contractSmall, pyTruthy, List.find?, List.filter]
  norm_num

theorem create_step2 : create_class_schedule env0 db1 s1 = .ok (db2, row2) := by
  simp [create_class_schedule, getQuarter, getDayTimeBlock, getGroup,
    getInstructor, getClassroom, validate_schedule, instructor_conflict_entry,
    classroom_conflict_entry, group_conflict_entry, check_instructor_conflict,
    check_classroom_conflict, check_group_conflict, workload_warning_entry,
    capacity_warning_entry, instructorContract, getContract, insertOK, rowFKOK,
    noSharedKey, triggerOnCreate, slotDurationHours, newClassScheduleRow, db1, db2,
    env0, s1, row1, row2,
    instructorAda, instructorBob, quarterOne, dtbMon, dtbTue, dtbWed, tbMorning,
    tbMidday, tbLong, contractFT, contractSmall, pyTruthy, List.find?, List.filter]
  norm_num

theorem db1_reachable : Reachable env0 db1 :=
  Reachable.create db0 db1 s0 row1
    (Reachable.init db0 rfl (by decide)) create_step1

theorem db2_reachable : Reachable env0 db2 :=
  Reachable.create db1 db2 s1 row2 db1_reachable create_step2

/-! ### Claim theorems -/

/-- C1: in every state reachable through the scheduling service's create and
update (and delete) operations, two distinct ClassSchedule rows with equal
`day_time_block_id` and equal `quarter_id` differ in `instructor_id`, in
`classroom_id`, and in `group_id`. -/
theorem c1_exclusivity_invariant (env : Env) (db : DB) (h : Reachable env db)
    (r1 r2 : ClassScheduleRow) (h1 : r1 ∈ db.schedules) (h2 : r2 ∈ db.schedules)
    (hne : r1 ≠ r2) (hdtb : r1.day_time_block_id = r2.day_time_block_id)
    (hq : r1.quarter_id = r2.quarter_id) :
    r1.instructor_id ≠ r2.instructor_id ∧ r1.classroom_id ≠ r2.classroom_id ∧
      r1.group_id ≠ r2.group_id := by
  have wf := reachable_wf env db h
  have hsym : ∀ a b : ClassScheduleRow,
      noSharedKey a b = true → noSharedKey b a = true := by
    intro a b hab
    rw [noSharedKey_symm]
    exact hab
  have hpair := pairwise_distinct_members hsym
    ((exclusivityOK_iff_pairwise _).mp wf.excl) r1 h1 r2 h2 hne
  rw [noSharedKey_iff] at hpair
  exact ⟨fun e => hpair.1 ⟨hdtb, hq, e⟩, fun e => hpair.2.1 ⟨hdtb, hq, e⟩,
    fun e => hpair.2.2 ⟨hdtb, hq, e⟩⟩

/-- Witness for C1 on a concrete two-row reachable state. -/
theorem c1_witness :
    row1.instructor_id ≠ row2.instructor_id ∧
      row1.classroom_id ≠ row2.classroom_id ∧ row1.group_id ≠ row2.group_id :=
  c1_exclusivity_invariant env0 db2 db2_reachable row1 row2 (by decide)
    (by decide) (by decide) rfl rfl

/-- C2: in every reachable state each instructor's `hour_count` equals the sum
of the slot durations of that instructor's stored assignments; moreover a
successful create adds the new row's slot duration to its instructor, a delete
subtracts the deleted row's slot duration, and an update that reassigns the
instructor subtracts the old row's duration from the old instructor and adds
the new row's duration to the new instructor. -/
theorem c2_workload_conservation (env : Env) (db : DB) (h : Reachable env db) :
    (∀ i ∈ db.instructors,
        i.hour_count = sumDurationHours env db.schedules i.instructor_id) ∧
    (∀ s db' row i i', create_class_schedule env db s = .ok (db', row) →
        getInstructor db s.instructor_id = some i →
        getInstructor db' s.instructor_id = some i' →
        i'.hour_count = i.hour_count + rowDurationHours env row) ∧
    (∀ id db' sched i i', delete_class_schedule env db id = .ok db' →
        getClassScheduleRow db id = some sched →
        getInstructor db sched.instructor_id = some i →
        getInstructor db' sched.instructor_id = some i' →
        i'.hour_count = i.hour_count - rowDurationHours env sched) ∧
    (∀ id u db' sched iOld iOld' iNew iNew',
        update_class_schedule env db id u = .ok db' →
        getClassScheduleRow db id = some sched →
        (applyUpdateFields sched u).instructor_id ≠ sched.instructor_id →
        getInstructor db sched.instructor_id = some iOld →
        getInstructor db' sched.instructor_id = some iOld' →
        getInstructor db (applyUpdateFields sched u).instructor_id = some iNew →
        getInstructor db' (applyUpdateFields sched u).instructor_id = some iNew' →
        iOld'.hour_count = iOld.hour_count - rowDurationHours env sched ∧
        iNew'.hour_count =
          iNew.hour_count + rowDurationHours env (applyUpdateFields sched u)) := by
  refine ⟨(reachable_wf env db h).hours, ?_, ?_, ?_⟩
  · intro s db' row i i' hstep hgi hgi'
    obtain ⟨dtb, hdtb, hval, hrow, hins, hdb'⟩ :=
      create_class_schedule_ok_inv env db s db' row hstep
    subst hdb'
    have hii : i.instructor_id = s.instructor_id := by
      simpa using List.find?_some hgi
    unfold getInstructor at hgi hgi'
    dsimp only at hgi'
    rw [triggerOnCreate_find?, hgi] at hgi'
    simp only [Option.map_some'] at hgi'
    rw [if_pos (beq_iff_eq.mpr hii)] at hgi'
    have hi' : i' = { i with hour_count := i.hour_count + slotDurationHours dtb } := by
      injection hgi' with h'
      exact h'.symm
    have hrowdur : rowDurationHours env row = slotDurationHours dtb := by
      unfold rowDurationHours
      rw [hrow]
      dsimp only [newClassScheduleRow]
      rw [hdtb]
    rw [hi', hrowdur]
  · intro id db' sched i i' hstep hfound2 hgi hgi'
    obtain ⟨schedule, hfound, hdb'⟩ := delete_class_schedule_ok_inv env db id db' hstep
    have hss : schedule = sched := by
      rw [hfound] at hfound2
      injection hfound2
    subst hss
    subst hdb'
    have hii : i.instructor_id = schedule.instructor_id := by
      simpa using List.find?_some hgi
    unfold getInstructor at hgi hgi'
    dsimp only at hgi'
    rw [triggerOnDelete_find?, hgi] at hgi'
    simp only [Option.map_some'] at hgi'
    rw [if_pos (beq_iff_eq.mpr hii)] at hgi'
    have hi' : i' = { i with
        hour_count := i.hour_count - rowDurationHours env schedule } := by
      injection hgi' with h'
      exact h'.symm
    rw [hi']
  · intro id u db' sched iOld iOld' iNew iNew' hstep hfound2 hne hgOld hgOld'
      hgNew hgNew'
    obtain ⟨schedule, hfound, hcommit, hdb'⟩ :=
      update_class_schedule_ok_inv env db id u db' hstep
    have hss : schedule = sched := by
      rw [hfound] at hfound2
      injection hfound2
    subst hss
    subst hdb'
    have hOldId : iOld.instructor_id = schedule.instructor_id := by
      simpa using List.find?_some hgOld
    have hNewId : iNew.instructor_id = (applyUpdateFields schedule u).instructor_id := by
      simpa using List.find?_some hgNew
    unfold getInstructor at hgOld hgOld' hgNew hgNew'
    dsimp only at hgOld' hgNew'
    rw [triggerOnReassign_find?, hgOld] at hgOld'
    rw [triggerOnReassign_find?, hgNew] at hgNew'
    simp only [Option.map_some'] at hgOld' hgNew'
    rw [if_pos (beq_iff_eq.mpr hOldId)] at hgOld'
    have hOldNe : ({ iOld with
        hour_count := iOld.hour_count - rowDurationHours env schedule
          } : InstructorRow).instructor_id ≠
        (applyUpdateFields schedule u).instructor_id := by
      dsimp only
      rw [hOldId]
      exact fun e => hne e.symm
    rw [if_neg (by simpa using hOldNe)] at hgOld'
    have hNewNeOld : iNew.instructor_id ≠ schedule.instructor_id := by
      rw [hNewId]
      exact hne
    have hb1 : (iNew.instructor_id == schedule.instructor_id) = false :=
      beq_eq_false_iff_ne.mpr hNewNeOld
    have hb2 : (iNew.instructor_id ==
        (applyUpdateFields schedule u).instructor_id) = true :=
      beq_iff_eq.mpr hNewId
    simp only [hb1, Bool.false_eq_true, if_false, hb2, if_true] at hgNew'
    constructor
    · injection hgOld' with h'
      rw [← h']
    · injection hgNew' with h'
      rw [← h']

/-- Witness for C2: the conservation invariant evaluated on a concrete
reachable state. -/
theorem c2_witness :
    (instructorAda 2).hour_count =
      sumDurationHours env0 db1.schedules (instructorAda 2).instructor_id :=
  (c2_workload_conservation env0 db1 db1_reachable).1 (instructorAda 2) (by decide)

theorem update_instructor_ok_inv (env : Env) (db : DB) (instructor_id : Nat)
    (u : InstructorUpdateSchema) (db' : DB)
    (h : update_instructor env db instructor_id u = .ok db') :
    db' = { db with
      instructors := db.instructors.map (fun i =>
        if i.instructor_id == instructor_id then
          applyInstructorUpdateFields i u
        else i) } := by
  unfold update_instructor at h
  split at h
  · simp at h
  simp only [] at h
  split at h
  · simp at h
  split at h
  · simp at h
  split at h
  · simp at h
  simp only [Except.ok.injEq] at h
  exact h.symm

/-- C3: `validate_schedule` always runs the three existence checks scoped to
(day_time_block_id, quarter_id) — instructor, then classroom, then group —
appends at most one conflict per dimension in that fixed order without
short-circuiting, and `is_valid` holds exactly when the conflicts list is
empty; the warnings play no part in `is_valid`. -/
theorem c3_validate_runs_all_checks (env : Env) (db : DB)
    (s : ClassScheduleCreateSchema) :
    (validate_schedule env db s).conflicts =
      instructor_conflict_entry env db s
        (check_instructor_conflict db s.instructor_id s.day_time_block_id
          s.quarter_id none)
      ++ classroom_conflict_entry env s
        (check_classroom_conflict db s.classroom_id s.day_time_block_id
          s.quarter_id none)
      ++ group_conflict_entry env s
        (check_group_conflict db s.group_id s.day_time_block_id
          s.quarter_id none) ∧
    (∀ found, (instructor_conflict_entry env db s found).length =
        if found.isSome then 1 else 0) ∧
    (∀ found, (classroom_conflict_entry env s found).length =
        if found.isSome then 1 else 0) ∧
    (∀ found, (group_conflict_entry env s found).length =
        if found.isSome then 1 else 0) ∧
    ((validate_schedule env db s).is_valid = true ↔
      (validate_schedule env db s).conflicts = []) ∧
    (validate_schedule env db s).is_valid =
      (validate_schedule env db s).conflicts.isEmpty := by
  refine ⟨rfl, ?_, ?_, ?_, ?_, rfl⟩
  · intro found
    cases found <;> rfl
  · intro found
    cases found <;> rfl
  · intro found
    cases found <;> rfl
  · show (validate_schedule env db s).conflicts.isEmpty = true ↔ _
    rw [List.isEmpty_iff]

/-- C9: `update_instructor` never changes any instructor's `hour_count` (the
update schema carries no such field); the schedule table is untouched as well. -/
theorem c9_hour_count_frame (env : Env) (db : DB) (instructor_id : Nat)
    (u : InstructorUpdateSchema) (db' : DB)
    (h : update_instructor env db instructor_id u = .ok db') :
    db'.schedules = db.schedules ∧
    List.Forall₂ (fun a b => a.instructor_id = b.instructor_id ∧
      a.hour_count = b.hour_count) db.instructors db'.instructors := by
  have hdb' := update_instructor_ok_inv env db instructor_id u db' h
  subst hdb'
  refine ⟨rfl, ?_⟩
  dsimp only
  rw [List.forall₂_map_right_iff]
  rw [List.forall₂_same]
  intro x _
  by_cases hx : x.instructor_id = instructor_id
  · rw [if_pos (beq_iff_eq.mpr hx)]
    exact ⟨rfl, rfl⟩
  · rw [if_neg (by simpa using hx)]
    exact ⟨rfl, rfl⟩

/-- Witness for C9: renaming an instructor leaves both hour counts in place. -/
theorem c9_witness :
    db9.schedules = db0.schedules ∧
    List.Forall₂ (fun a b => a.instructor_id = b.instructor_id ∧
      a.hour_count = b.hour_count) db0.instructors db9.instructors :=
  c9_hour_count_frame env0 db0 1 u9 db9 rfl

/-- C10: when a conflicting row exists at the candidate's slot and quarter but
the candidate's instructor, classroom or group lookup returns no entity,
`validate_schedule` still reports the conflict, with resource_name "Unknown",
instead of failing with NotFound. -/
theorem c10_unknown_resource_name (env : Env) (db : DB)
    (s : ClassScheduleCreateSchema) :
    (∀ cs, check_instructor_conflict db s.instructor_id s.day_time_block_id
        s.quarter_id none = some cs →
      getInstructor db s.instructor_id = none →
      ({ conflict_type := "instructor"
         resource_id := s.instructor_id
         resource_name := "Unknown"
         existing_schedule_id := cs.class_schedule_id
         existing_subject := cs.subject
         day := dtbDayName env cs.day_time_block_id
         time_block := dtbTimeLabel env cs.day_time_block_id } : ScheduleConflict)
        ∈ (validate_schedule env db s).conflicts) ∧
    (∀ cs, check_classroom_conflict db s.classroom_id s.day_time_block_id
        s.quarter_id none = some cs →
      getClassroom env s.classroom_id = none →
      ({ conflict_type := "classroom"
         resource_id := s.classroom_id
         resource_name := "Unknown"
         existing_schedule_id := cs.class_schedule_id
         existing_subject := cs.subject
         day := dtbDayName env cs.day_time_block_id
         time_block := dtbTimeLabel env cs.day_time_block_id } : ScheduleConflict)
        ∈ (validate_schedule env db s).conflicts) ∧
    (∀ cs, check_group_conflict db s.group_id s.day_time_block_id
        s.quarter_id none = some cs →
      getGroup env s.group_id = none →
      ({ conflict_type := "group"
         resource_id := s.group_id
         resource_name := "Unknown"
         existing_schedule_id := cs.class_schedule_id
         existing_subject := cs.subject
         day := dtbDayName env cs.day_time_block_id
         time_block := dtbTimeLabel env cs.day_time_block_id } : ScheduleConflict)
        ∈ (validate_schedule env db s).conflicts) := by
  refine ⟨?_, ?_, ?_⟩ <;> intro cs hfound hnone
  · simp [validate_schedule, instructor_conflict_entry, hfound, hnone]
  · simp [validate_schedule, classroom_conflict_entry, hfound, hnone]
  · simp [validate_schedule, group_conflict_entry, hfound, hnone]

/-- Witness for C10 on a state whose stored row references a missing
instructor. -/
theorem c10_witness :
    ({ conflict_type := "instructor"
       resource_id := s0.instructor_id
       resource_name := "Unknown"
       existing_schedule_id := row1.class_schedule_id
       existing_subject := row1.subject
       day := dtbDayName env0 row1.day_time_block_id
       time_block := dtbTimeLabel env0 row1.day_time_block_id } : ScheduleConflict)
      ∈ (validate_schedule env0 db10 s0).conflicts :=
  (c10_unknown_resource_name env0 db10 s0).1 row1 (by decide) (by decide)

/-- C6: the workload status ladder — NO_LIMIT without a truthy contract limit,
otherwise the first matching rule in the fixed descending order
OVERLOADED (≥ 100) → NEAR_LIMIT (≥ 90) → HIGH_LOAD (≥ 70) → MEDIUM_LOAD (≥ 50)
→ LOW_LOAD, with utilization = hour_count / hour_limit × 100; and the four
concrete threshold cases of spec §8. -/
theorem c6_workload_status_ladder (env : Env) (db : DB) (instructor_id : Nat)
    (i : InstructorRow) (hi : getInstructor db instructor_id = some i) :
    ((Option.bind (instructorContract env i) ContractRow.hour_limit = none ∨
        Option.bind (instructorContract env i) ContractRow.hour_limit = some 0) →
      workloadStatusResult env db instructor_id = some "NO_LIMIT") ∧
    (∀ c l, instructorContract env i = some c → c.hour_limit = some l → l ≠ 0 →
      workloadStatusResult env db instructor_id = some
        (if i.hour_count / (l : Rat) * 100 ≥ 100 then "OVERLOADED"
         else if i.hour_count / (l : Rat) * 100 ≥ 90 then "NEAR_LIMIT"
         else if i.hour_count / (l : Rat) * 100 ≥ 70 then "HIGH_LOAD"
         else if i.hour_count / (l : Rat) * 100 ≥ 50 then "MEDIUM_LOAD"
         else "LOW_LOAD")) ∧
    workloadStatusResult env0 db6 1 = some "NO_LIMIT" ∧
    workloadStatusResult env0 db6 2 = some "NEAR_LIMIT" ∧
    workloadStatusResult env0 db6 3 = some "OVERLOADED" ∧
    workloadStatusResult env0 db6 4 = some "MEDIUM_LOAD" := by
  refine ⟨?_, ?_, ?_, ?_, ?_, ?_⟩
  · intro hcase
    unfold workloadStatusResult get_instructor_workload get_workload_summary
    rw [hi]
    rcases hcase with hnone | h0
    · cases hc : instructorContract env i with
      | none => simp [hc]
      | some c =>
        rw [hc] at hnone
        simp only [Option.some_bind] at hnone
        simp [hc, hnone]
    · cases hc : instructorContract env i with
      | none => simp [hc]
      | some c =>
        rw [hc] at h0
        simp only [Option.some_bind] at h0
        simp [hc, h0]
  · intro c l hc hl hl0
    unfold workloadStatusResult get_instructor_workload get_workload_summary
    rw [hi]
    simp [hc, hl, hl0]
  · simp [workloadStatusResult, get_instructor_workload, get_workload_summary,
      getInstructor, instructorContract, getContract, db6, env0, contractFT,
      contractSmall, List.find?]
  · simp [workloadStatusResult, get_instructor_workload, get_workload_summary,
      getInstructor, instructorContract, getContract, db6, env0, contractFT,
      contractSmall, List.find?]
    norm_num
  · simp [workloadStatusResult, get_instructor_workload, get_workload_summary,
      getInstructor, instructorContract, getContract, db6, env0, contractFT,
      contractSmall, List.find?]
    norm_num
  · simp [workloadStatusResult, get_instructor_workload, get_workload_summary,
      getInstructor, instructorContract, getContract, db6, env0, contractFT,
      contractSmall, List.find?]
    norm_num

/-- Witness for C6: the NO_LIMIT case evaluated concretely. -/
theorem c6_witness : workloadStatusResult env0 db6 1 = some "NO_LIMIT" :=
  (c6_workload_status_ladder env0 db6 1
    ⟨1, "Nia", "Nolimit", none, "nia", 20, none, none, true⟩ (by decide)).2.2.1

/-- The three-clause overlap disjunction used by the repository is equivalent
to the plain intersection test for well-formed ranges. -/
theorem overlap_clause_iff (t : QuarterRow) (s e : Int) (hse : s < e)
    (ht : t.start_date < t.end_date) :
    ((t.start_date ≤ s ∧ t.end_date ≥ s) ∨ (t.start_date ≤ e ∧ t.end_date ≥ e) ∨
        (t.start_date ≥ s ∧ t.end_date ≤ e)) ↔
      (t.start_date ≤ e ∧ s ≤ t.end_date) := by
  omega

theorem get_overlapping_quarters_nonempty (db : DB) (s e : Int) :
    get_overlapping_quarters db s e none ≠ [] ↔
      ∃ t ∈ db.quarters,
        ((t.start_date ≤ s ∧ t.end_date ≥ s) ∨ (t.start_date ≤ e ∧ t.end_date ≥ e) ∨
          (t.start_date ≥ s ∧ t.end_date ≤ e)) := by
  unfold get_overlapping_quarters
  simp only [pyTruthy, Bool.false_eq_true, if_false]
  rw [ne_eq, List.filter_eq_nil_iff]
  push_neg
  constructor
  · rintro ⟨t, ht, hp⟩
    refine ⟨t, ht, ?_⟩
    simpa [and_assoc, or_assoc] using hp
  · rintro ⟨t, ht, hp⟩
    refine ⟨t, ht, ?_⟩
    simpa [and_assoc, or_assoc] using hp

/-- C8: create_quarter fails BadRequest when end ≤ start; otherwise Conflict
QUARTER_EXISTS on an identical stored pair; otherwise Conflict QUARTER_OVERLAP
exactly when some stored quarter's range intersects the new range per
a.start ≤ b.end ∧ b.start ≤ a.end (the code's three-clause disjunction being
equivalent for ranges with start < end); otherwise the quarter is created. -/
theorem c8_create_quarter_cases (db : DB) (q : QuarterCreateSchema)
    (hwf : ∀ t ∈ db.quarters, t.start_date < t.end_date) :
    (q.end_date ≤ q.start_date →
      create_quarter db q = .error (.badRequest "INVALID_DATE_RANGE")) ∧
    (q.start_date < q.end_date →
      (∃ t ∈ db.quarters, t.start_date = q.start_date ∧ t.end_date = q.end_date) →
      create_quarter db q = .error (.conflict "QUARTER_EXISTS")) ∧
    (q.start_date < q.end_date →
      (∀ t ∈ db.quarters, ¬(t.start_date = q.start_date ∧ t.end_date = q.end_date)) →
      (create_quarter db q = .error (.conflict "QUARTER_OVERLAP") ↔
        ∃ t ∈ db.quarters, t.start_date ≤ q.end_date ∧ q.start_date ≤ t.end_date)) ∧
    (q.start_date < q.end_date →
      (∀ t ∈ db.quarters, ¬(t.start_date ≤ q.end_date ∧ q.start_date ≤ t.end_date)) →
      create_quarter db q = .ok
        ({ db with
            quarters := db.quarters ++
              [{ quarter_id := db.next_quarter_id
                 start_date := q.start_date
                 end_date := q.end_date }]
            next_quarter_id := db.next_quarter_id + 1 },
         { quarter_id := db.next_quarter_id
           start_date := q.start_date
           end_date := q.end_date })) := by
  refine ⟨?_, ?_, ?_, ?_⟩
  · intro hle
    unfold create_quarter
    rw [if_pos hle]
  · intro hlt hex
    unfold create_quarter
    rw [if_neg (not_le.mpr hlt)]
    have : (get_by_dates db q.start_date q.end_date).isSome := by
      unfold get_by_dates
      rw [List.find?_isSome]
      rcases hex with ⟨t, ht, h1, h2⟩
      exact ⟨t, ht, by simp [h1, h2]⟩
    rcases Option.isSome_iff_exists.mp this with ⟨t, ht⟩
    rw [ht]
  · intro hlt hnone
    unfold create_quarter
    rw [if_neg (not_le.mpr hlt)]
    have hbd : get_by_dates db q.start_date q.end_date = none := by
      unfold get_by_dates
      rw [List.find?_eq_none]
      intro t ht
      have := hnone t ht
      simpa using this
    rw [hbd]
    constructor
    · intro herr
      by_cases hov : get_overlapping_quarters db q.start_date q.end_date none = []
      · rw [hov] at herr
        simp at herr
      · rcases (get_overlapping_quarters_nonempty db q.start_date q.end_date).mp
          hov with ⟨t, ht, hcl⟩
        exact ⟨t, ht, (overlap_clause_iff t q.start_date q.end_date hlt
          (hwf t ht)).mp hcl⟩
    · rintro ⟨t, ht, hint⟩
      have hov : get_overlapping_quarters db q.start_date q.end_date none ≠ [] :=
        (get_overlapping_quarters_nonempty db q.start_date q.end_date).mpr
          ⟨t, ht, (overlap_clause_iff t q.start_date q.end_date hlt
            (hwf t ht)).mpr hint⟩
      rw [if_pos (by simpa [List.isEmpty_iff] using hov)]
  · intro hlt hnoint
    unfold create_quarter
    rw [if_neg (not_le.mpr hlt)]
    have hbd : get_by_dates db q.start_date q.end_date = none := by
      unfold get_by_dates
      rw [List.find?_eq_none]
      intro t ht
      have h1 := hnoint t ht
      have h2 := hwf t ht
      simp only [Bool.and_eq_true, beq_iff_eq, not_and]
      intro hs he
      exact absurd ⟨by omega, by omega⟩ h1
    rw [hbd]
    have hov : get_overlapping_quarters db q.start_date q.end_date none = [] := by
      by_contra hne
      rcases (get_overlapping_quarters_nonempty db q.start_date q.end_date).mp
        hne with ⟨t, ht, hcl⟩
      exact hnoint t ht ((overlap_clause_iff t q.start_date q.end_date hlt
        (hwf t ht)).mp hcl)
    rw [if_neg (by simp [hov])]

/-- Witness for C8: creating a quarter over empty storage succeeds. -/
theorem c8_witness :
    create_quarter dbEmpty q8 = .ok
      ({ dbEmpty with
          quarters := [{ quarter_id := 1, start_date := 100, end_date := 190 }]
          next_quarter_id := 2 },
       { quarter_id := 1, start_date := 100, end_date := 190 }) := by
  have h := (c8_create_quarter_cases dbEmpty q8
    (by intro t ht; simp [dbEmpty] at ht)).2.2.2
  have h2 := h (by norm_num [q8]) (by intro t ht; simp [dbEmpty] at ht)
  simpa [dbEmpty, q8] using h2

theorem instructor_entry_nil_iff (env : Env) (db : DB)
    (s : ClassScheduleCreateSchema) (found : Option ClassScheduleRow) :
    instructor_conflict_entry env db s found = [] ↔ found = none := by
  cases found <;> simp [instructor_conflict_entry]

theorem classroom_entry_nil_iff (env : Env) (s : ClassScheduleCreateSchema)
    (found : Option ClassScheduleRow) :
    classroom_conflict_entry env s found = [] ↔ found = none := by
  cases found <;> simp [classroom_conflict_entry]

theorem group_entry_nil_iff (env : Env) (s : ClassScheduleCreateSchema)
    (found : Option ClassScheduleRow) :
    group_conflict_entry env s found = [] ↔ found = none := by
  cases found <;> simp [group_conflict_entry]

theorem check_instructor_conflict_none_iff (db : DB) (a b c : Nat) :
    check_instructor_conflict db a b c none = none ↔
      ∀ t ∈ db.schedules,
        ¬(t.instructor_id = a ∧ t.day_time_block_id = b ∧ t.quarter_id = c) := by
  unfold check_instructor_conflict
  dsimp only [pyTruthy]
  rw [if_neg (by simp), List.head?_eq_none_iff, List.filter_eq_nil_iff]
  constructor <;> intro h t ht <;> have := h t ht <;> simpa using this

theorem check_classroom_conflict_none_iff (db : DB) (a b c : Nat) :
    check_classroom_conflict db a b c none = none ↔
      ∀ t ∈ db.schedules,
        ¬(t.classroom_id = a ∧ t.day_time_block_id = b ∧ t.quarter_id = c) := by
  unfold check_classroom_conflict
  dsimp only [pyTruthy]
  rw [if_neg (by simp), List.head?_eq_none_iff, List.filter_eq_nil_iff]
  constructor <;> intro h t ht <;> have := h t ht <;> simpa using this

theorem check_group_conflict_none_iff (db : DB) (a b c : Nat) :
    check_group_conflict db a b c none = none ↔
      ∀ t ∈ db.schedules,
        ¬(t.group_id = a ∧ t.day_time_block_id = b ∧ t.quarter_id = c) := by
  unfold check_group_conflict
  dsimp only [pyTruthy]
  rw [if_neg (by simp), List.head?_eq_none_iff, List.filter_eq_nil_iff]
  constructor <;> intro h t ht <;> have := h t ht <;> simpa using this

/-- An empty application-level conflict list makes the three composite unique
indexes accept the insert, and the five verified lookups satisfy its foreign
keys. -/
theorem conflicts_empty_insertOK (env : Env) (db : DB)
    (s : ClassScheduleCreateSchema)
    (hq : (getQuarter db s.quarter_id).isSome = true)
    (hd : (getDayTimeBlock env s.day_time_block_id).isSome = true)
    (hg : (getGroup env s.group_id).isSome = true)
    (hi : (getInstructor db s.instructor_id).isSome = true)
    (hc : (getClassroom env s.classroom_id).isSome = true)
    (hconf : (validate_schedule env db s).conflicts = []) :
    insertOK env db (newClassScheduleRow db s) = true := by
  have hsplit : instructor_conflict_entry env db s
      (check_instructor_conflict db s.instructor_id s.day_time_block_id
        s.quarter_id none) = [] ∧
      classroom_conflict_entry env s
        (check_classroom_conflict db s.classroom_id s.day_time_block_id
          s.quarter_id none) = [] ∧
      group_conflict_entry env s
        (check_group_conflict db s.group_id s.day_time_block_id
          s.quarter_id none) = [] := by
    have h0 : (validate_schedule env db s).conflicts =
        instructor_conflict_entry env db s
          (check_instructor_conflict db s.instructor_id s.day_time_block_id
            s.quarter_id none)
        ++ classroom_conflict_entry env s
          (check_classroom_conflict db s.classroom_id s.day_time_block_id
            s.quarter_id none)
        ++ group_conflict_entry env s
          (check_group_conflict db s.group_id s.day_time_block_id
            s.quarter_id none) := rfl
    rw [hconf] at h0
    have := h0.symm
    simpa [List.append_eq_nil] using this
  have hinone := (instructor_entry_nil_iff env db s _).mp hsplit.1
  have hcnone := (classroom_entry_nil_iff env s _).mp hsplit.2.1
  have hgnone := (group_entry_nil_iff env s _).mp hsplit.2.2
  have hifact := (check_instructor_conflict_none_iff db _ _ _).mp hinone
  have hcfact := (check_classroom_conflict_none_iff db _ _ _).mp hcnone
  have hgfact := (check_group_conflict_none_iff db _ _ _).mp hgnone
  unfold insertOK
  rw [Bool.and_eq_true]
  constructor
  · rw [List.all_eq_true]
    intro t ht
    rw [noSharedKey_iff]
    refine ⟨?_, ?_, ?_⟩
    · rintro ⟨h1, h2, h3⟩
      exact hifact t ht ⟨h3.symm, h1.symm, h2.symm⟩
    · rintro ⟨h1, h2, h3⟩
      exact hcfact t ht ⟨h3.symm, h1.symm, h2.symm⟩
    · rintro ⟨h1, h2, h3⟩
      exact hgfact t ht ⟨h3.symm, h1.symm, h2.symm⟩
  · unfold rowFKOK
    simp only [Bool.and_eq_true]
    exact ⟨⟨⟨⟨hq, hd⟩, hg⟩, hi⟩, hc⟩

/-- C4: when the five referenced ids resolve, `create_class_schedule` raises a
Conflict naming the first conflict's type, resource name and existing subject
exactly when validation returns a non-empty conflicts list, and on an empty
list inserts exactly the validated row; when a referenced id is missing it
fails with the corresponding NotFound, checked in the source's order; and on
any failure whatsoever — Conflict, NotFound, or a commit error — the stored
state is unchanged. -/
theorem c4_create_conflict_atomicity (env : Env) (db : DB)
    (s : ClassScheduleCreateSchema) :
    ((getQuarter db s.quarter_id).isSome = true →
      (getDayTimeBlock env s.day_time_block_id).isSome = true →
      (getGroup env s.group_id).isSome = true →
      (getInstructor db s.instructor_id).isSome = true →
      (getClassroom env s.classroom_id).isSome = true →
      (∀ c rest, (validate_schedule env db s).conflicts = c :: rest →
        create_class_schedule env db s =
          .error (.scheduleConflict c.conflict_type c.resource_name
            c.existing_subject)) ∧
      ((validate_schedule env db s).conflicts = [] →
        ∃ db', create_class_schedule env db s =
            .ok (db', newClassScheduleRow db s) ∧
          db'.schedules = db.schedules ++ [newClassScheduleRow db s]) ∧
      ((validate_schedule env db s).conflicts ≠ [] ↔
        ∃ ct rn es, create_class_schedule env db s =
          .error (.scheduleConflict ct rn es))) ∧
    (getQuarter db s.quarter_id = none →
      create_class_schedule env db s =
        .error (.notFound "Quarter" s.quarter_id)) ∧
    ((getQuarter db s.quarter_id).isSome = true →
      getDayTimeBlock env s.day_time_block_id = none →
      create_class_schedule env db s =
        .error (.notFound "DayTimeBlock" s.day_time_block_id)) ∧
    ((getQuarter db s.quarter_id).isSome = true →
      (getDayTimeBlock env s.day_time_block_id).isSome = true →
      getGroup env s.group_id = none →
      create_class_schedule env db s =
        .error (.notFound "StudentGroup" s.group_id)) ∧
    ((getQuarter db s.quarter_id).isSome = true →
      (getDayTimeBlock env s.day_time_block_id).isSome = true →
      (getGroup env s.group_id).isSome = true →
      getInstructor db s.instructor_id = none →
      create_class_schedule env db s =
        .error (.notFound "Instructor" s.instructor_id)) ∧
    ((getQuarter db s.quarter_id).isSome = true →
      (getDayTimeBlock env s.day_time_block_id).isSome = true →
      (getGroup env s.group_id).isSome = true →
      (getInstructor db s.instructor_id).isSome = true →
      getClassroom env s.classroom_id = none →
      create_class_schedule env db s =
        .error (.notFound "Classroom" s.classroom_id)) ∧
    (∀ e, create_class_schedule env db s = .error e →
      createRunState env db s = db) := by
  refine ⟨?_, ?_, ?_, ?_, ?_, ?_, ?_⟩
  · intro hq hd hg hi hc
    rcases Option.isSome_iff_exists.mp hq with ⟨qv, hqv⟩
    rcases Option.isSome_iff_exists.mp hd with ⟨dv, hdv⟩
    rcases Option.isSome_iff_exists.mp hg with ⟨gv, hgv⟩
    rcases Option.isSome_iff_exists.mp hi with ⟨iv, hiv⟩
    rcases Option.isSome_iff_exists.mp hc with ⟨cv, hcv⟩
    have hbranch : ∀ c rest, (validate_schedule env db s).conflicts = c :: rest →
        create_class_schedule env db s =
          .error (.scheduleConflict c.conflict_type c.resource_name
            c.existing_subject) := by
      intro c rest hconf
      have hval : (validate_schedule env db s).is_valid = false := by
        have h0 : (validate_schedule env db s).is_valid =
            (validate_schedule env db s).conflicts.isEmpty := rfl
        rw [h0, hconf]
        rfl
      unfold create_class_schedule
      rw [hqv, hdv, hgv, hiv, hcv]
      simp only [hval, Bool.not_false, if_true]
      unfold firstConflictError
      rw [hconf]
    have hok : (validate_schedule env db s).conflicts = [] →
        create_class_schedule env db s = .ok
          ({ db with
              schedules := db.schedules ++ [newClassScheduleRow db s]
              next_class_schedule_id := db.next_class_schedule_id + 1
              instructors := triggerOnCreate db.instructors s.instructor_id
                (slotDurationHours dv) },
            newClassScheduleRow db s) := by
      intro hconf
      have hval : (validate_schedule env db s).is_valid = true := by
        have h0 : (validate_schedule env db s).is_valid =
            (validate_schedule env db s).conflicts.isEmpty := rfl
        rw [h0, hconf]
        rfl
      have hins := conflicts_empty_insertOK env db s hq hd hg hi hc hconf
      unfold create_class_schedule
      rw [hqv, hdv, hgv, hiv, hcv]
      simp only [hval, Bool.not_true, if_false, Bool.false_eq_true]
      rw [if_pos hins]
    refine ⟨hbranch, ?_, ?_⟩
    · intro hconf
      exact ⟨_, hok hconf, rfl⟩
    · constructor
      · intro hne
        cases hcf : (validate_schedule env db s).conflicts with
        | nil => exact absurd hcf hne
        | cons c rest => exact ⟨c.conflict_type, c.resource_name,
            c.existing_subject, hbranch c rest hcf⟩
      · rintro ⟨ct, rn, es, herr⟩ hconf
        rw [hok hconf] at herr
        exact Except.noConfusion herr
  · intro hqn
    unfold create_class_schedule
    rw [hqn]
  · intro hq hdn
    rcases Option.isSome_iff_exists.mp hq with ⟨qv, hqv⟩
    unfold create_class_schedule
    rw [hqv, hdn]
  · intro hq hd hgn
    rcases Option.isSome_iff_exists.mp hq with ⟨qv, hqv⟩
    rcases Option.isSome_iff_exists.mp hd with ⟨dv, hdv⟩
    unfold create_class_schedule
    rw [hqv, hdv, hgn]
  · intro hq hd hg hin
    rcases Option.isSome_iff_exists.mp hq with ⟨qv, hqv⟩
    rcases Option.isSome_iff_exists.mp hd with ⟨dv, hdv⟩
    rcases Option.isSome_iff_exists.mp hg with ⟨gv, hgv⟩
    unfold create_class_schedule
    rw [hqv, hdv, hgv, hin]
  · intro hq hd hg hi hcn
    rcases Option.isSome_iff_exists.mp hq with ⟨qv, hqv⟩
    rcases Option.isSome_iff_exists.mp hd with ⟨dv, hdv⟩
    rcases Option.isSome_iff_exists.mp hg with ⟨gv, hgv⟩
    rcases Option.isSome_iff_exists.mp hi with ⟨iv, hiv⟩
    unfold create_class_schedule
    rw [hqv, hdv, hgv, hiv, hcn]
  · intro e he
    unfold createRunState
    rw [he]

/-- Witness for C4: the clean creation scenario inserts exactly the validated
row, and a NotFound failure on a missing quarter leaves the state unchanged. -/
theorem c4_witness :
    (∃ db', create_class_schedule env0 db0 s0 =
        .ok (db', newClassScheduleRow db0 s0) ∧
      db'.schedules = db0.schedules ++ [newClassScheduleRow db0 s0]) ∧
    create_class_schedule env0 db0 ⟨"Algebra", 9, 1, 1, 1, 1⟩ =
      .error (.notFound "Quarter" 9) ∧
    createRunState env0 db0 ⟨"Algebra", 9, 1, 1, 1, 1⟩ = db0 :=
  ⟨((c4_create_conflict_atomicity env0 db0 s0).1 (by decide) (by decide)
      (by decide) (by decide) (by decide)).2.1 (by decide),
    (c4_create_conflict_atomicity env0 db0 ⟨"Algebra", 9, 1, 1, 1, 1⟩).2.1
      (by decide),
    (c4_create_conflict_atomicity env0 db0 ⟨"Algebra", 9, 1, 1, 1, 1⟩).2.2.2.2.2.2
      (.notFound "Quarter" 9)
      ((c4_create_conflict_atomicity env0 db0 ⟨"Algebra", 9, 1, 1, 1, 1⟩).2.1
        (by decide))⟩

/-- C5 counterexample: moving the 2-hour Monday assignment of an instructor
with hour_count 4 and limit 5 to the 3-hour Wednesday slot makes
`validate_schedule` (called by `update_class_schedule` on the merged candidate)
emit an overload warning with projected total 4 + 3 = 7, although the
net-adjusted total 4 − 2 + 3 = 5 does not exceed the limit — so for updates the
projection is not net-adjusted as the claim states. -/
theorem c5_counterexample :
    (validate_schedule env0 db5 (update_validation_data row1 u5)).warnings =
      [Warning.overload "Ada Lovelace" 7 5] ∧
    ¬(instructorCap.hour_count - rowDurationHours env0 row1 +
        rowDurationHours env0 (applyUpdateFields row1 u5) > (5 : Rat)) := by
  constructor
  · simp [validate_schedule, workload_warning_entry, capacity_warning_entry,
      getInstructor, getClassroom, getGroup, getDayTimeBlock, instructorContract,
      getContract, update_validation_data, pyOrNat, pyOrStr, db5, env0, row1, rowB,
      u5, instructorCap, quarterOne, dtbMon, dtbTue, dtbWed, tbMorning, tbMidday,
      tbLong, contractFT, contractSmall, slotDurationHours, InstructorRow.full_name,
      List.find?]
    norm_num
  · have hr1 : rowDurationHours env0 row1 = 2 := by
      unfold rowDurationHours getDayTimeBlock
      rw [show env0.dtbs = [dtbMon, dtbTue, dtbWed] from rfl,
        List.find?_cons_of_pos _ (by decide)]
      norm_num [dtbMon, tbMorning, slotDurationHours]
    have hr2 : rowDurationHours env0 (applyUpdateFields row1 u5) = 3 := by
      unfold rowDurationHours getDayTimeBlock
      rw [show env0.dtbs = [dtbMon, dtbTue, dtbWed] from rfl,
        List.find?_cons_of_neg _ (by decide), List.find?_cons_of_neg _ (by decide),
        List.find?_cons_of_pos _ (by decide)]
      norm_num [dtbWed, tbLong, slotDurationHours]
    rw [hr1, hr2, show instructorCap.hour_count = 4 from rfl]
    norm_num

/-- C5 (amended): `validate_schedule` emits exactly one overload warning iff
current hour_count + the candidate slot's duration strictly exceeds the truthy
contract limit — for updates no net adjustment is applied, the same additive
projection runs on the merged candidate; the warning never blocks a create or
an update. -/
theorem c5_overload_warning_projection (env : Env) (db : DB)
    (s : ClassScheduleCreateSchema) (i : InstructorRow) (c : ContractRow)
    (l : Nat) (dtb : DayTimeBlockRow)
    (hi : getInstructor db s.instructor_id = some i)
    (hc : instructorContract env i = some c)
    (hl : c.hour_limit = some l) (hl0 : l ≠ 0)
    (hdtb : getDayTimeBlock env s.day_time_block_id = some dtb) :
    (workload_warning_entry env db s =
      if i.hour_count + slotDurationHours dtb > (l : Rat) then
        [Warning.overload i.full_name (i.hour_count + slotDurationHours dtb) l]
      else []) ∧
    ((validate_schedule env db s).warnings =
      workload_warning_entry env db s ++ capacity_warning_entry env s) ∧
    ((validate_schedule env db s).conflicts = [] →
      (getQuarter db s.quarter_id).isSome = true →
      (getGroup env s.group_id).isSome = true →
      (getClassroom env s.classroom_id).isSome = true →
      ∃ db', create_class_schedule env db s = .ok (db', newClassScheduleRow db s)) ∧
    (∀ id u sched ct rn es, getClassScheduleRow db id = some sched →
      (validate_schedule env db (update_validation_data sched u)).conflicts.filter
        (fun cf => cf.existing_schedule_id != id) = [] →
      update_class_schedule env db id u ≠ .error (.scheduleConflict ct rn es)) := by
  refine ⟨?_, rfl, ?_, ?_⟩
  · unfold workload_warning_entry
    rw [hi]
    dsimp only
    rw [hc]
    dsimp only
    rw [hl]
    dsimp only
    rw [if_neg hl0, hdtb]
    rfl
  · intro hconf hq hg hcr
    have hd : (getDayTimeBlock env s.day_time_block_id).isSome = true := by
      rw [hdtb]
      rfl
    have hins := conflicts_empty_insertOK env db s hq hd hg
      (by rw [hi]; rfl) hcr hconf
    have hval : (validate_schedule env db s).is_valid = true := by
      have h0 : (validate_schedule env db s).is_valid =
          (validate_schedule env db s).conflicts.isEmpty := rfl
      rw [h0, hconf]
      rfl
    rcases Option.isSome_iff_exists.mp hq with ⟨qv, hqv⟩
    rcases Option.isSome_iff_exists.mp hg with ⟨gv, hgv⟩
    rcases Option.isSome_iff_exists.mp hcr with ⟨cv, hcv⟩
    refine ⟨{ db with
        schedules := db.schedules ++ [newClassScheduleRow db s]
        next_class_schedule_id := db.next_class_schedule_id + 1
        instructors := triggerOnCreate db.instructors s.instructor_id
          (slotDurationHours dtb) }, ?_⟩
    unfold create_class_schedule
    rw [hqv, hdtb, hgv, hi, hcv]
    simp only [hval, Bool.not_true, if_false, Bool.false_eq_true]
    rw [if_pos hins]
  · intro id u sched ct rn es hfound hrem
    unfold update_class_schedule
    rw [hfound]
    have hper : persist_class_schedule_update env db id u sched ≠
        .error (.scheduleConflict ct rn es) := by
      unfold persist_class_schedule_update
      simp only []
      split
      · exact fun h => Except.noConfusion h
      · intro h
        injection h with h'
        exact AppError.noConfusion h'
    dsimp only
    split
    · rw [hrem]
      simp only [List.isEmpty_nil, Bool.not_true, Bool.false_eq_true, if_false]
      exact hper
    · exact hper

/-- Witness for C5: the scenario-8 instructor (39 of 40 hours) gets exactly one
overload warning for a 2-hour slot, projected 41 > 40. -/
theorem c5_witness :
    workload_warning_entry env0 db8 s0 =
      if (instructorBusy.hour_count + slotDurationHours dtbMon > (40 : Rat)) then
        [Warning.overload instructorBusy.full_name
          (instructorBusy.hour_count + slotDurationHours dtbMon) 40]
      else [] :=
  (c5_overload_warning_projection env0 db8 s0 instructorBusy contractFT 40 dtbMon
    (by decide) (by decide) (by decide) (by decide) (by decide)).1

/-- Under the exclusivity invariants, the rows matching one conflict
dimension's key form at most a singleton. -/
theorem filter_matching_singleton (l : List ClassScheduleRow)
    (p : ClassScheduleRow → Bool)
    (hpe : l.Pairwise (fun a b => noSharedKey a b = true))
    (hkey : ∀ a b, p a = true → p b = true → noSharedKey a b = false)
    (t : ClassScheduleRow) (hhead : (l.filter p).head? = some t) :
    l.filter p = [t] := by
  cases hf : l.filter p with
  | nil =>
    rw [hf] at hhead
    simp at hhead
  | cons x rest =>
    rw [hf] at hhead
    have hx : x = t := by simpa using hhead
    subst hx
    cases rest with
    | nil => rfl
    | cons y rest2 =>
      exfalso
      have hsub : (l.filter p).Pairwise (fun a b => noSharedKey a b = true) :=
        hpe.sublist (List.filter_sublist _)
      rw [hf, List.pairwise_cons] at hsub
      have h1 : noSharedKey x y = true :=
        hsub.1 y (List.mem_cons_self y rest2)
      have hxmem : x ∈ l.filter p := by
        rw [hf]
        exact List.mem_cons_self _ _
      have hymem : y ∈ l.filter p := by
        rw [hf]
        exact List.mem_cons_of_mem _ (List.mem_cons_self _ _)
      have hpx := (List.mem_filter.mp hxmem).2
      have hpy := (List.mem_filter.mp hymem).2
      rw [hkey x y hpx hpy] at h1
      exact Bool.noConfusion h1

/-- Dropping the rows carrying a given primary key after taking the first
match agrees with excluding that key inside the query, for at-most-singleton
matches. -/
theorem exclude_head?_eq (l : List ClassScheduleRow) (p : ClassScheduleRow → Bool)
    (id : Nat)
    (hpe : l.Pairwise (fun a b => noSharedKey a b = true))
    (hpu : l.Pairwise (fun a b => a.class_schedule_id ≠ b.class_schedule_id))
    (hkey : ∀ a b, p a = true → p b = true → noSharedKey a b = false) :
    ((l.filter p).filter (fun cs => cs.class_schedule_id != id)).head? =
      ((l.filter p).head?).bind
        (fun t => if t.class_schedule_id != id then some t else none) := by
  cases hh : (l.filter p).head? with
  | none =>
    rw [List.head?_eq_none_iff] at hh
    rw [hh]
    rfl
  | some t =>
    have hsing := filter_matching_singleton l p hpe hkey t hh
    rw [hsing]
    by_cases ht : t.class_schedule_id = id
    · simp [List.filter_cons, ht]
    · simp [List.filter_cons, ht]

/-- When the row being excluded is itself the unique match, the
exclude-variant query finds nothing. -/
theorem exclude_own_check_none (l : List ClassScheduleRow)
    (p : ClassScheduleRow → Bool) (id : Nat) (sched : ClassScheduleRow)
    (hpe : l.Pairwise (fun a b => noSharedKey a b = true))
    (hkey : ∀ a b, p a = true → p b = true → noSharedKey a b = false)
    (hmem : sched ∈ l) (hpsched : p sched = true)
    (hsid : sched.class_schedule_id = id) :
    ((l.filter p).filter (fun cs => cs.class_schedule_id != id)).head? = none := by
  rw [List.head?_eq_none_iff, List.filter_eq_nil_iff]
  intro x hx
  have hx' := List.mem_filter.mp hx
  have hxeq : x = sched := by
    by_contra hne
    have hns := pairwise_distinct_members
      (fun a b hab => by rw [noSharedKey_symm]; exact hab) hpe x hx'.1 sched hmem hne
    rw [hkey x sched hx'.2 hpsched] at hns
    exact Bool.noConfusion hns
  subst hxeq
  simp [hsid]

theorem instructor_hkey (s : ClassScheduleCreateSchema) :
    ∀ a b : ClassScheduleRow,
      (a.instructor_id == s.instructor_id &&
        a.day_time_block_id == s.day_time_block_id &&
        a.quarter_id == s.quarter_id) = true →
      (b.instructor_id == s.instructor_id &&
        b.day_time_block_id == s.day_time_block_id &&
        b.quarter_id == s.quarter_id) = true →
      noSharedKey a b = false := by
  intro a b ha hb
  simp only [Bool.and_eq_true, beq_iff_eq] at ha hb
  rw [Bool.eq_false_iff]
  intro htrue
  rw [noSharedKey_iff] at htrue
  exact htrue.1 ⟨ha.1.2.trans hb.1.2.symm, ha.2.trans hb.2.symm,
    ha.1.1.trans hb.1.1.symm⟩

theorem classroom_hkey (s : ClassScheduleCreateSchema) :
    ∀ a b : ClassScheduleRow,
      (a.classroom_id == s.classroom_id &&
        a.day_time_block_id == s.day_time_block_id &&
        a.quarter_id == s.quarter_id) = true →
      (b.classroom_id == s.classroom_id &&
        b.day_time_block_id == s.day_time_block_id &&
        b.quarter_id == s.quarter_id) = true →
      noSharedKey a b = false := by
  intro a b ha hb
  simp only [Bool.and_eq_true, beq_iff_eq] at ha hb
  rw [Bool.eq_false_iff]
  intro htrue
  rw [noSharedKey_iff] at htrue
  exact htrue.2.1 ⟨ha.1.2.trans hb.1.2.symm, ha.2.trans hb.2.symm,
    ha.1.1.trans hb.1.1.symm⟩

theorem group_hkey (s : ClassScheduleCreateSchema) :
    ∀ a b : ClassScheduleRow,
      (a.group_id == s.group_id &&
        a.day_time_block_id == s.day_time_block_id &&
        a.quarter_id == s.quarter_id) = true →
      (b.group_id == s.group_id &&
        b.day_time_block_id == s.day_time_block_id &&
        b.quarter_id == s.quarter_id) = true →
      noSharedKey a b = false := by
  intro a b ha hb
  simp only [Bool.and_eq_true, beq_iff_eq] at ha hb
  rw [Bool.eq_false_iff]
  intro htrue
  rw [noSharedKey_iff] at htrue
  exact htrue.2.2 ⟨ha.1.2.trans hb.1.2.symm, ha.2.trans hb.2.symm,
    ha.1.1.trans hb.1.1.symm⟩

theorem check_instructor_conflict_none_shape (db : DB) (a b c : Nat) :
    check_instructor_conflict db a b c none =
      (db.schedules.filter (fun cs => cs.instructor_id == a &&
        cs.day_time_block_id == b && cs.quarter_id == c)).head? := rfl

theorem check_instructor_conflict_some_shape (db : DB) (a b c id : Nat)
    (hid : id ≠ 0) :
    check_instructor_conflict db a b c (some id) =
      ((db.schedules.filter (fun cs => cs.instructor_id == a &&
          cs.day_time_block_id == b && cs.quarter_id == c)).filter
        (fun cs => cs.class_schedule_id != id)).head? := by
  unfold check_instructor_conflict
  dsimp only [pyTruthy]
  rw [if_pos (by simpa using hid)]
  rfl

theorem check_classroom_conflict_none_shape (db : DB) (a b c : Nat) :
    check_classroom_conflict db a b c none =
      (db.schedules.filter (fun cs => cs.classroom_id == a &&
        cs.day_time_block_id == b && cs.quarter_id == c)).head? := rfl

theorem check_classroom_conflict_some_shape (db : DB) (a b c id : Nat)
    (hid : id ≠ 0) :
    check_classroom_conflict db a b c (some id) =
      ((db.schedules.filter (fun cs => cs.classroom_id == a &&
          cs.day_time_block_id == b && cs.quarter_id == c)).filter
        (fun cs => cs.class_schedule_id != id)).head? := by
  unfold check_classroom_conflict
  dsimp only [pyTruthy]
  rw [if_pos (by simpa using hid)]
  rfl

theorem check_group_conflict_none_shape (db : DB) (a b c : Nat) :
    check_group_conflict db a b c none =
      (db.schedules.filter (fun cs => cs.group_id == a &&
        cs.day_time_block_id == b && cs.quarter_id == c)).head? := rfl

theorem check_group_conflict_some_shape (db : DB) (a b c id : Nat)
    (hid : id ≠ 0) :
    check_group_conflict db a b c (some id) =
      ((db.schedules.filter (fun cs => cs.group_id == a &&
          cs.day_time_block_id == b && cs.quarter_id == c)).filter
        (fun cs => cs.class_schedule_id != id)).head? := by
  unfold check_group_conflict
  dsimp only [pyTruthy]
  rw [if_pos (by simpa using hid)]
  rfl

theorem instructor_entry_filter_exclude (env : Env) (db : DB)
    (s : ClassScheduleCreateSchema) (id : Nat)
    (hexcl : exclusivityOK db.schedules = true)
    (huniq : idsDistinctOK db.schedules = true)
    (hid : id ≠ 0) :
    (instructor_conflict_entry env db s
        (check_instructor_conflict db s.instructor_id s.day_time_block_id
          s.quarter_id none)).filter (fun c => c.existing_schedule_id != id) =
      instructor_conflict_entry env db s
        (check_instructor_conflict db s.instructor_id s.day_time_block_id
          s.quarter_id (some id)) := by
  have hpe := (exclusivityOK_iff_pairwise _).mp hexcl
  have hpu := (idsDistinctOK_iff_pairwise _).mp huniq
  rw [check_instructor_conflict_none_shape,
    check_instructor_conflict_some_shape db _ _ _ id hid,
    exclude_head?_eq _ _ id hpe hpu (instructor_hkey s)]
  cases hh : (db.schedules.filter (fun cs => cs.instructor_id == s.instructor_id &&
      cs.day_time_block_id == s.day_time_block_id &&
      cs.quarter_id == s.quarter_id)).head? with
  | none => rfl
  | some t =>
    by_cases ht : t.class_schedule_id = id
    · simp [instructor_conflict_entry, ht]
    · simp [instructor_conflict_entry, ht]

theorem classroom_entry_filter_exclude (env : Env) (db : DB)
    (s : ClassScheduleCreateSchema) (id : Nat)
    (hexcl : exclusivityOK db.schedules = true)
    (huniq : idsDistinctOK db.schedules = true)
    (hid : id ≠ 0) :
    (classroom_conflict_entry env s
        (check_classroom_conflict db s.classroom_id s.day_time_block_id
          s.quarter_id none)).filter (fun c => c.existing_schedule_id != id) =
      classroom_conflict_entry env s
        (check_classroom_conflict db s.classroom_id s.day_time_block_id
          s.quarter_id (some id)) := by
  have hpe := (exclusivityOK_iff_pairwise _).mp hexcl
  have hpu := (idsDistinctOK_iff_pairwise _).mp huniq
  rw [check_classroom_conflict_none_shape,
    check_classroom_conflict_some_shape db _ _ _ id hid,
    exclude_head?_eq _ _ id hpe hpu (classroom_hkey s)]
  cases hh : (db.schedules.filter (fun cs => cs.classroom_id == s.classroom_id &&
      cs.day_time_block_id == s.day_time_block_id &&
      cs.quarter_id == s.quarter_id)).head? with
  | none => rfl
  | some t =>
    by_cases ht : t.class_schedule_id = id
    · simp [classroom_conflict_entry, ht]
    · simp [classroom_conflict_entry, ht]

theorem group_entry_filter_exclude (env : Env) (db : DB)
    (s : ClassScheduleCreateSchema) (id : Nat)
    (hexcl : exclusivityOK db.schedules = true)
    (huniq : idsDistinctOK db.schedules = true)
    (hid : id ≠ 0) :
    (group_conflict_entry env s
        (check_group_conflict db s.group_id s.day_time_block_id
          s.quarter_id none)).filter (fun c => c.existing_schedule_id != id) =
      group_conflict_entry env s
        (check_group_conflict db s.group_id s.day_time_block_id
          s.quarter_id (some id)) := by
  have hpe := (exclusivityOK_iff_pairwise _).mp hexcl
  have hpu := (idsDistinctOK_iff_pairwise _).mp huniq
  rw [check_group_conflict_none_shape,
    check_group_conflict_some_shape db _ _ _ id hid,
    exclude_head?_eq _ _ id hpe hpu (group_hkey s)]
  cases hh : (db.schedules.filter (fun cs => cs.group_id == s.group_id &&
      cs.day_time_block_id == s.day_time_block_id &&
      cs.quarter_id == s.quarter_id)).head? with
  | none => rfl
  | some t =>
    by_cases ht : t.class_schedule_id = id
    · simp [group_conflict_entry, ht]
    · simp [group_conflict_entry, ht]

/-- C7: in every state satisfying the three exclusivity invariants (with
distinct primary keys), filtering the conflicts of `validate_schedule` by
`existing_schedule_id ≠ id` — as `update_class_schedule` does — yields exactly
the conflicts of validation run with `exclude_id = id` — as the spec states;
consequently an update whose merged candidate repeats the stored row's five
ids never raises a Conflict. -/
theorem c7_update_exclusion_refinement (env : Env) (db : DB) (id : Nat)
    (hexcl : exclusivityOK db.schedules = true)
    (huniq : idsDistinctOK db.schedules = true)
    (hid : id ≠ 0) :
    (∀ s, (validate_schedule env db s).conflicts.filter
        (fun c => c.existing_schedule_id != id) =
      (validate_schedule_exclude env db s (some id)).conflicts) ∧
    (∀ u sched, getClassScheduleRow db id = some sched →
      update_validation_data sched u =
        { subject := pyOrStr u.subject sched.subject
          quarter_id := sched.quarter_id
          day_time_block_id := sched.day_time_block_id
          group_id := sched.group_id
          instructor_id := sched.instructor_id
          classroom_id := sched.classroom_id } →
      ∀ ct rn es, update_class_schedule env db id u ≠
        .error (.scheduleConflict ct rn es)) := by
  have hpe := (exclusivityOK_iff_pairwise _).mp hexcl
  have part1 : ∀ s, (validate_schedule env db s).conflicts.filter
      (fun c => c.existing_schedule_id != id) =
      (validate_schedule_exclude env db s (some id)).conflicts := by
    intro s
    have hL : (validate_schedule env db s).conflicts =
        instructor_conflict_entry env db s
          (check_instructor_conflict db s.instructor_id s.day_time_block_id
            s.quarter_id none)
        ++ classroom_conflict_entry env s
          (check_classroom_conflict db s.classroom_id s.day_time_block_id
            s.quarter_id none)
        ++ group_conflict_entry env s
          (check_group_conflict db s.group_id s.day_time_block_id
            s.quarter_id none) := rfl
    have hR : (validate_schedule_exclude env db s (some id)).conflicts =
        instructor_conflict_entry env db s
          (check_instructor_conflict db s.instructor_id s.day_time_block_id
            s.quarter_id (some id))
        ++ classroom_conflict_entry env s
          (check_classroom_conflict db s.classroom_id s.day_time_block_id
            s.quarter_id (some id))
        ++ group_conflict_entry env s
          (check_group_conflict db s.group_id s.day_time_block_id
            s.quarter_id (some id)) := rfl
    rw [hL, hR, List.filter_append, List.filter_append,
      instructor_entry_filter_exclude env db s id hexcl huniq hid,
      classroom_entry_filter_exclude env db s id hexcl huniq hid,
      group_entry_filter_exclude env db s id hexcl huniq hid]
  refine ⟨part1, ?_⟩
  intro u sched hfound hval ct rn es
  obtain ⟨hmem, hsid⟩ := getClassScheduleRow_spec db id sched hfound
  have hper : persist_class_schedule_update env db id u sched ≠
      .error (.scheduleConflict ct rn es) := by
    unfold persist_class_schedule_update
    simp only []
    split
    · exact fun h => Except.noConfusion h
    · intro h
      injection h with h'
      exact AppError.noConfusion h'
  unfold update_class_schedule
  rw [hfound]
  dsimp only
  split
  · have hrem : (validate_schedule env db
        (update_validation_data sched u)).conflicts.filter
        (fun c => c.existing_schedule_id != id) = [] := by
      rw [part1 (update_validation_data sched u)]
      have hcand := hval
      have hRconf : (validate_schedule_exclude env db
          (update_validation_data sched u) (some id)).conflicts =
          instructor_conflict_entry env db (update_validation_data sched u)
            (check_instructor_conflict db
              (update_validation_data sched u).instructor_id
              (update_validation_data sched u).day_time_block_id
              (update_validation_data sched u).quarter_id (some id))
          ++ classroom_conflict_entry env (update_validation_data sched u)
            (check_classroom_conflict db
              (update_validation_data sched u).classroom_id
              (update_validation_data sched u).day_time_block_id
              (update_validation_data sched u).quarter_id (some id))
          ++ group_conflict_entry env (update_validation_data sched u)
            (check_group_conflict db
              (update_validation_data sched u).group_id
              (update_validation_data sched u).day_time_block_id
              (update_validation_data sched u).quarter_id (some id)) := rfl
      have hfields : (update_validation_data sched u).instructor_id =
            sched.instructor_id ∧
          (update_validation_data sched u).classroom_id = sched.classroom_id ∧
          (update_validation_data sched u).group_id = sched.group_id ∧
          (update_validation_data sched u).day_time_block_id =
            sched.day_time_block_id ∧
          (update_validation_data sched u).quarter_id = sched.quarter_id := by
        rw [hcand]
        exact ⟨rfl, rfl, rfl, rfl, rfl⟩
      obtain ⟨hf1, hf2, hf3, hf4, hf5⟩ := hfields
      rw [hRconf, hf1, hf2, hf3, hf4, hf5]
      have hcheck1 : check_instructor_conflict db sched.instructor_id
          sched.day_time_block_id sched.quarter_id (some id) = none := by
        rw [check_instructor_conflict_some_shape db _ _ _ id hid]
        exact exclude_own_check_none db.schedules _ id sched hpe
          (instructor_hkey ⟨"", sched.quarter_id, sched.day_time_block_id,
            sched.group_id, sched.instructor_id, sched.classroom_id⟩)
          hmem (by simp) hsid
      have hcheck2 : check_classroom_conflict db sched.classroom_id
          sched.day_time_block_id sched.quarter_id (some id) = none := by
        rw [check_classroom_conflict_some_shape db _ _ _ id hid]
        exact exclude_own_check_none db.schedules _ id sched hpe
          (classroom_hkey ⟨"", sched.quarter_id, sched.day_time_block_id,
            sched.group_id, sched.instructor_id, sched.classroom_id⟩)
          hmem (by simp) hsid
      have hcheck3 : check_group_conflict db sched.group_id
          sched.day_time_block_id sched.quarter_id (some id) = none := by
        rw [check_group_conflict_some_shape db _ _ _ id hid]
        exact exclude_own_check_none db.schedules _ id sched hpe
          (group_hkey ⟨"", sched.quarter_id, sched.day_time_block_id,
            sched.group_id, sched.instructor_id, sched.classroom_id⟩)
          hmem (by simp) hsid
      rw [hcheck1, hcheck2, hcheck3]
      rfl
    rw [hrem]
    simp only [List.isEmpty_nil, Bool.not_true, Bool.false_eq_true, if_false]
    exact hper
  · exact hper

/-- Witness for C7: re-providing the stored instructor on the two-row state
raises no Conflict. -/
theorem c7_witness :
    update_class_schedule env0 db2 1 u7 ≠
      .error (.scheduleConflict "instructor" "Ada Lovelace" "Algebra") :=
  (c7_update_exclusion_refinement env0 db2 1 (by decide) (by decide)
    (by decide)).2 u7 row1 (by decide) (by decide) "instructor" "Ada Lovelace"
    "Algebra"

end Schedium
